import Mathlib

/-!
Verification development for the simpler-Vulkan-synchronization header
(`thsvs_simpler_vulkan_synchronization.h`, version alpha.4).

The header defines a static access-type registry (`ThsvsAccessMap`) and three
pure mapping functions (`thsvsGetVulkanMemoryBarrier`,
`thsvsGetVulkanBufferMemoryBarrier`, `thsvsGetVulkanImageMemoryBarrier`) that
fold previous/next access lists into Vulkan stage masks, access masks and
image layouts, plus batching wrappers (`thsvsCmdPipelineBarrier`,
`thsvsCmdWaitEvents`) that start from top-of-pipe / bottom-of-pipe stage
defaults.  Machine integers are modelled as `Nat` (all operations here are
bitwise ORs and comparisons, which cannot overflow); C output parameters are
modelled by passing the caller-visible initial values in and returning the
final values.
-/

/-! ### Vulkan constants (values from the Vulkan headers) -/

def VK_PIPELINE_STAGE_TOP_OF_PIPE_BIT : Nat := 0x00000001
def VK_PIPELINE_STAGE_DRAW_INDIRECT_BIT : Nat := 0x00000002
def VK_PIPELINE_STAGE_VERTEX_INPUT_BIT : Nat := 0x00000004
def VK_PIPELINE_STAGE_VERTEX_SHADER_BIT : Nat := 0x00000008
def VK_PIPELINE_STAGE_TESSELLATION_CONTROL_SHADER_BIT : Nat := 0x00000010
def VK_PIPELINE_STAGE_TESSELLATION_EVALUATION_SHADER_BIT : Nat := 0x00000020
def VK_PIPELINE_STAGE_GEOMETRY_SHADER_BIT : Nat := 0x00000040
def VK_PIPELINE_STAGE_FRAGMENT_SHADER_BIT : Nat := 0x00000080
def VK_PIPELINE_STAGE_EARLY_FRAGMENT_TESTS_BIT : Nat := 0x00000100
def VK_PIPELINE_STAGE_LATE_FRAGMENT_TESTS_BIT : Nat := 0x00000200
def VK_PIPELINE_STAGE_COLOR_ATTACHMENT_OUTPUT_BIT : Nat := 0x00000400
def VK_PIPELINE_STAGE_COMPUTE_SHADER_BIT : Nat := 0x00000800
def VK_PIPELINE_STAGE_TRANSFER_BIT : Nat := 0x00001000
def VK_PIPELINE_STAGE_BOTTOM_OF_PIPE_BIT : Nat := 0x00002000
def VK_PIPELINE_STAGE_HOST_BIT : Nat := 0x00004000
def VK_PIPELINE_STAGE_ALL_COMMANDS_BIT : Nat := 0x00010000
def VK_PIPELINE_STAGE_COMMAND_PROCESS_BIT_NVX : Nat := 0x00020000

def VK_ACCESS_INDIRECT_COMMAND_READ_BIT : Nat := 0x00000001
def VK_ACCESS_INDEX_READ_BIT : Nat := 0x00000002
def VK_ACCESS_VERTEX_ATTRIBUTE_READ_BIT : Nat := 0x00000004
def VK_ACCESS_UNIFORM_READ_BIT : Nat := 0x00000008
def VK_ACCESS_INPUT_ATTACHMENT_READ_BIT : Nat := 0x00000010
def VK_ACCESS_SHADER_READ_BIT : Nat := 0x00000020
def VK_ACCESS_SHADER_WRITE_BIT : Nat := 0x00000040
def VK_ACCESS_COLOR_ATTACHMENT_READ_BIT : Nat := 0x00000080
def VK_ACCESS_COLOR_ATTACHMENT_WRITE_BIT : Nat := 0x00000100
def VK_ACCESS_DEPTH_STENCIL_ATTACHMENT_READ_BIT : Nat := 0x00000200
def VK_ACCESS_DEPTH_STENCIL_ATTACHMENT_WRITE_BIT : Nat := 0x00000400
def VK_ACCESS_TRANSFER_READ_BIT : Nat := 0x00000800
def VK_ACCESS_TRANSFER_WRITE_BIT : Nat := 0x00001000
def VK_ACCESS_HOST_READ_BIT : Nat := 0x00002000
def VK_ACCESS_HOST_WRITE_BIT : Nat := 0x00004000
def VK_ACCESS_TYPE_MEMORY_READ_BIT : Nat := 0x00008000
def VK_ACCESS_TYPE_MEMORY_WRITE_BIT : Nat := 0x00010000
def VK_ACCESS_COMMAND_PROCESS_READ_BIT_NVX : Nat := 0x00020000
def VK_ACCESS_COMMAND_PROCESS_WRITE_BIT_NVX : Nat := 0x00040000

def VK_IMAGE_LAYOUT_UNDEFINED : Nat := 0
def VK_IMAGE_LAYOUT_GENERAL : Nat := 1
def VK_IMAGE_LAYOUT_COLOR_ATTACHMENT_OPTIMAL : Nat := 2
def VK_IMAGE_LAYOUT_DEPTH_STENCIL_ATTACHMENT_OPTIMAL : Nat := 3
def VK_IMAGE_LAYOUT_DEPTH_STENCIL_READ_ONLY_OPTIMAL : Nat := 4
def VK_IMAGE_LAYOUT_SHADER_READ_ONLY_OPTIMAL : Nat := 5
def VK_IMAGE_LAYOUT_TRANSFER_SRC_OPTIMAL : Nat := 6
def VK_IMAGE_LAYOUT_TRANSFER_DST_OPTIMAL : Nat := 7
def VK_IMAGE_LAYOUT_PRESENT_SRC_KHR : Nat := 1000001002
def VK_IMAGE_LAYOUT_SHARED_PRESENT_KHR : Nat := 1000111000
def VK_IMAGE_LAYOUT_DEPTH_READ_ONLY_STENCIL_ATTACHMENT_OPTIMAL_KHR : Nat := 1000117000
def VK_IMAGE_LAYOUT_DEPTH_ATTACHMENT_STENCIL_READ_ONLY_OPTIMAL_KHR : Nat := 1000117001

def VK_STRUCTURE_TYPE_BUFFER_MEMORY_BARRIER : Nat := 44
def VK_STRUCTURE_TYPE_IMAGE_MEMORY_BARRIER : Nat := 45
def VK_STRUCTURE_TYPE_MEMORY_BARRIER : Nat := 46

def VK_TRUE : Nat := 1

/-! ### `ThsvsAccessType` — C enum modelled by its ordinal -/

abbrev ThsvsAccessType := Nat

def THSVS_ACCESS_NONE : ThsvsAccessType := 0
def THSVS_ACCESS_COMMAND_BUFFER_READ_NVX : ThsvsAccessType := 1
def THSVS_ACCESS_INDIRECT_BUFFER : ThsvsAccessType := 2
def THSVS_ACCESS_INDEX_BUFFER : ThsvsAccessType := 3
def THSVS_ACCESS_VERTEX_BUFFER : ThsvsAccessType := 4
def THSVS_ACCESS_VERTEX_SHADER_READ_UNIFORM_BUFFER : ThsvsAccessType := 5
def THSVS_ACCESS_VERTEX_SHADER_READ_SAMPLED_IMAGE_OR_UNIFORM_TEXEL_BUFFER : ThsvsAccessType := 6
def THSVS_ACCESS_VERTEX_SHADER_READ_OTHER : ThsvsAccessType := 7
def THSVS_ACCESS_TESSELLATION_CONTROL_SHADER_READ_UNIFORM_BUFFER : ThsvsAccessType := 8
def THSVS_ACCESS_TESSELLATION_CONTROL_SHADER_READ_SAMPLED_IMAGE_OR_UNIFORM_TEXEL_BUFFER : ThsvsAccessType := 9
def THSVS_ACCESS_TESSELLATION_CONTROL_SHADER_READ_OTHER : ThsvsAccessType := 10
def THSVS_ACCESS_TESSELLATION_EVALUATION_SHADER_READ_UNIFORM_BUFFER : ThsvsAccessType := 11
def THSVS_ACCESS_TESSELLATION_EVALUATION_SHADER_READ_SAMPLED_IMAGE_OR_UNIFORM_TEXEL_BUFFER : ThsvsAccessType := 12
def THSVS_ACCESS_TESSELLATION_EVALUATION_SHADER_READ_OTHER : ThsvsAccessType := 13
def THSVS_ACCESS_GEOMETRY_SHADER_READ_UNIFORM_BUFFER : ThsvsAccessType := 14
def THSVS_ACCESS_GEOMETRY_SHADER_READ_SAMPLED_IMAGE_OR_UNIFORM_TEXEL_BUFFER : ThsvsAccessType := 15
def THSVS_ACCESS_GEOMETRY_SHADER_READ_OTHER : ThsvsAccessType := 16
def THSVS_ACCESS_FRAGMENT_SHADER_READ_UNIFORM_BUFFER : ThsvsAccessType := 17
def THSVS_ACCESS_FRAGMENT_SHADER_READ_SAMPLED_IMAGE_OR_UNIFORM_TEXEL_BUFFER : ThsvsAccessType := 18
def THSVS_ACCESS_FRAGMENT_SHADER_READ_COLOR_INPUT_ATTACHMENT : ThsvsAccessType := 19
def THSVS_ACCESS_FRAGMENT_SHADER_READ_DEPTH_STENCIL_INPUT_ATTACHMENT : ThsvsAccessType := 20
def THSVS_ACCESS_FRAGMENT_SHADER_READ_OTHER : ThsvsAccessType := 21
def THSVS_ACCESS_COLOR_ATTACHMENT_READ : ThsvsAccessType := 22
def THSVS_ACCESS_DEPTH_STENCIL_ATTACHMENT_READ : ThsvsAccessType := 23
def THSVS_ACCESS_COMPUTE_SHADER_READ_UNIFORM_BUFFER : ThsvsAccessType := 24
def THSVS_ACCESS_COMPUTE_SHADER_READ_SAMPLED_IMAGE_OR_UNIFORM_TEXEL_BUFFER : ThsvsAccessType := 25
def THSVS_ACCESS_COMPUTE_SHADER_READ_OTHER : ThsvsAccessType := 26
def THSVS_ACCESS_ANY_SHADER_READ_UNIFORM_BUFFER : ThsvsAccessType := 27
def THSVS_ACCESS_ANY_SHADER_READ_UNIFORM_BUFFER_OR_VERTEX_BUFFER : ThsvsAccessType := 28
def THSVS_ACCESS_ANY_SHADER_READ_SAMPLED_IMAGE_OR_UNIFORM_TEXEL_BUFFER : ThsvsAccessType := 29
def THSVS_ACCESS_ANY_SHADER_READ_OTHER : ThsvsAccessType := 30
def THSVS_ACCESS_TRANSFER_READ : ThsvsAccessType := 31
def THSVS_ACCESS_HOST_READ : ThsvsAccessType := 32
def THSVS_ACCESS_PRESENT : ThsvsAccessType := 33
def THSVS_ACCESS_COMMAND_BUFFER_WRITE_NVX : ThsvsAccessType := 34
def THSVS_ACCESS_VERTEX_SHADER_WRITE : ThsvsAccessType := 35
def THSVS_ACCESS_TESSELLATION_CONTROL_SHADER_WRITE : ThsvsAccessType := 36
def THSVS_ACCESS_TESSELLATION_EVALUATION_SHADER_WRITE : ThsvsAccessType := 37
def THSVS_ACCESS_GEOMETRY_SHADER_WRITE : ThsvsAccessType := 38
def THSVS_ACCESS_FRAGMENT_SHADER_WRITE : ThsvsAccessType := 39
def THSVS_ACCESS_COLOR_ATTACHMENT_WRITE : ThsvsAccessType := 40
def THSVS_ACCESS_DEPTH_STENCIL_ATTACHMENT_WRITE : ThsvsAccessType := 41
def THSVS_ACCESS_DEPTH_ATTACHMENT_WRITE_STENCIL_READ_ONLY : ThsvsAccessType := 42
def THSVS_ACCESS_STENCIL_ATTACHMENT_WRITE_DEPTH_READ_ONLY : ThsvsAccessType := 43
def THSVS_ACCESS_COMPUTE_SHADER_WRITE : ThsvsAccessType := 44
def THSVS_ACCESS_ANY_SHADER_WRITE : ThsvsAccessType := 45
def THSVS_ACCESS_TRANSFER_WRITE : ThsvsAccessType := 46
def THSVS_ACCESS_HOST_WRITE : ThsvsAccessType := 47
def THSVS_ACCESS_COLOR_ATTACHMENT_READ_WRITE : ThsvsAccessType := 48
def THSVS_ACCESS_GENERAL : ThsvsAccessType := 49
def THSVS_NUM_ACCESS_TYPES : Nat := 50

/-! ### `ThsvsImageLayout` -/

inductive ThsvsImageLayout where
  | THSVS_IMAGE_LAYOUT_OPTIMAL
  | THSVS_IMAGE_LAYOUT_GENERAL
  | THSVS_IMAGE_LAYOUT_GENERAL_AND_PRESENTATION
deriving DecidableEq

/-! ### `ThsvsVkAccessInfo` and the access-map registry -/

structure ThsvsVkAccessInfo where
  stageMask : Nat
  accessMask : Nat
  imageLayout : Nat
deriving DecidableEq

/-- The 50-entry registry `ThsvsAccessMap`, indexed by access-type ordinal,
transcribed entry by entry from the header. -/
def ThsvsAccessMap : List ThsvsVkAccessInfo := [
  -- THSVS_ACCESS_NONE
  ⟨0, 0, VK_IMAGE_LAYOUT_UNDEFINED⟩,
  -- THSVS_ACCESS_COMMAND_BUFFER_READ_NVX
  ⟨VK_PIPELINE_STAGE_COMMAND_PROCESS_BIT_NVX, VK_ACCESS_COMMAND_PROCESS_READ_BIT_NVX,
    VK_IMAGE_LAYOUT_UNDEFINED⟩,
  -- THSVS_ACCESS_INDIRECT_BUFFER
  ⟨VK_PIPELINE_STAGE_DRAW_INDIRECT_BIT, VK_ACCESS_INDIRECT_COMMAND_READ_BIT,
    VK_IMAGE_LAYOUT_UNDEFINED⟩,
  -- THSVS_ACCESS_INDEX_BUFFER
  ⟨VK_PIPELINE_STAGE_VERTEX_INPUT_BIT, VK_ACCESS_INDEX_READ_BIT, VK_IMAGE_LAYOUT_UNDEFINED⟩,
  -- THSVS_ACCESS_VERTEX_BUFFER
  ⟨VK_PIPELINE_STAGE_VERTEX_INPUT_BIT, VK_ACCESS_VERTEX_ATTRIBUTE_READ_BIT,
    VK_IMAGE_LAYOUT_UNDEFINED⟩,
  -- THSVS_ACCESS_VERTEX_SHADER_READ_UNIFORM_BUFFER
  ⟨VK_PIPELINE_STAGE_VERTEX_SHADER_BIT, VK_ACCESS_UNIFORM_READ_BIT, VK_IMAGE_LAYOUT_UNDEFINED⟩,
  -- THSVS_ACCESS_VERTEX_SHADER_READ_SAMPLED_IMAGE_OR_UNIFORM_TEXEL_BUFFER
  ⟨VK_PIPELINE_STAGE_VERTEX_SHADER_BIT, VK_ACCESS_SHADER_READ_BIT,
    VK_IMAGE_LAYOUT_SHADER_READ_ONLY_OPTIMAL⟩,
  -- THSVS_ACCESS_VERTEX_SHADER_READ_OTHER
  ⟨VK_PIPELINE_STAGE_VERTEX_SHADER_BIT, VK_ACCESS_SHADER_READ_BIT, VK_IMAGE_LAYOUT_GENERAL⟩,
  -- THSVS_ACCESS_TESSELLATION_CONTROL_SHADER_READ_UNIFORM_BUFFER
  ⟨VK_PIPELINE_STAGE_TESSELLATION_CONTROL_SHADER_BIT, VK_ACCESS_UNIFORM_READ_BIT,
    VK_IMAGE_LAYOUT_UNDEFINED⟩,
  -- THSVS_ACCESS_TESSELLATION_CONTROL_SHADER_READ_SAMPLED_IMAGE_OR_UNIFORM_TEXEL_BUFFER
  ⟨VK_PIPELINE_STAGE_TESSELLATION_CONTROL_SHADER_BIT, VK_ACCESS_SHADER_READ_BIT,
    VK_IMAGE_LAYOUT_SHADER_READ_ONLY_OPTIMAL⟩,
  -- THSVS_ACCESS_TESSELLATION_CONTROL_SHADER_READ_OTHER
  ⟨VK_PIPELINE_STAGE_TESSELLATION_CONTROL_SHADER_BIT, VK_ACCESS_SHADER_READ_BIT,
    VK_IMAGE_LAYOUT_GENERAL⟩,
  -- THSVS_ACCESS_TESSELLATION_EVALUATION_SHADER_READ_UNIFORM_BUFFER
  ⟨VK_PIPELINE_STAGE_TESSELLATION_EVALUATION_SHADER_BIT, VK_ACCESS_UNIFORM_READ_BIT,
    VK_IMAGE_LAYOUT_UNDEFINED⟩,
  -- THSVS_ACCESS_TESSELLATION_EVALUATION_SHADER_READ_SAMPLED_IMAGE_OR_UNIFORM_TEXEL_BUFFER
  ⟨VK_PIPELINE_STAGE_TESSELLATION_EVALUATION_SHADER_BIT, VK_ACCESS_SHADER_READ_BIT,
    VK_IMAGE_LAYOUT_SHADER_READ_ONLY_OPTIMAL⟩,
  -- THSVS_ACCESS_TESSELLATION_EVALUATION_SHADER_READ_OTHER
  ⟨VK_PIPELINE_STAGE_TESSELLATION_EVALUATION_SHADER_BIT, VK_ACCESS_SHADER_READ_BIT,
    VK_IMAGE_LAYOUT_GENERAL⟩,
  -- THSVS_ACCESS_GEOMETRY_SHADER_READ_UNIFORM_BUFFER
  ⟨VK_PIPELINE_STAGE_GEOMETRY_SHADER_BIT, VK_ACCESS_UNIFORM_READ_BIT, VK_IMAGE_LAYOUT_UNDEFINED⟩,
  -- THSVS_ACCESS_GEOMETRY_SHADER_READ_SAMPLED_IMAGE_OR_UNIFORM_TEXEL_BUFFER
  ⟨VK_PIPELINE_STAGE_GEOMETRY_SHADER_BIT, VK_ACCESS_SHADER_READ_BIT,
    VK_IMAGE_LAYOUT_SHADER_READ_ONLY_OPTIMAL⟩,
  -- THSVS_ACCESS_GEOMETRY_SHADER_READ_OTHER
  ⟨VK_PIPELINE_STAGE_GEOMETRY_SHADER_BIT, VK_ACCESS_SHADER_READ_BIT, VK_IMAGE_LAYOUT_GENERAL⟩,
  -- THSVS_ACCESS_FRAGMENT_SHADER_READ_UNIFORM_BUFFER
  ⟨VK_PIPELINE_STAGE_FRAGMENT_SHADER_BIT, VK_ACCESS_UNIFORM_READ_BIT, VK_IMAGE_LAYOUT_UNDEFINED⟩,
  -- THSVS_ACCESS_FRAGMENT_SHADER_READ_SAMPLED_IMAGE_OR_UNIFORM_TEXEL_BUFFER
  ⟨VK_PIPELINE_STAGE_FRAGMENT_SHADER_BIT, VK_ACCESS_SHADER_READ_BIT,
    VK_IMAGE_LAYOUT_SHADER_READ_ONLY_OPTIMAL⟩,
  -- THSVS_ACCESS_FRAGMENT_SHADER_READ_COLOR_INPUT_ATTACHMENT
  ⟨VK_PIPELINE_STAGE_FRAGMENT_SHADER_BIT, VK_ACCESS_INPUT_ATTACHMENT_READ_BIT,
    VK_IMAGE_LAYOUT_SHADER_READ_ONLY_OPTIMAL⟩,
  -- THSVS_ACCESS_FRAGMENT_SHADER_READ_DEPTH_STENCIL_INPUT_ATTACHMENT
  ⟨VK_PIPELINE_STAGE_FRAGMENT_SHADER_BIT, VK_ACCESS_DEPTH_STENCIL_ATTACHMENT_READ_BIT,
    VK_IMAGE_LAYOUT_DEPTH_STENCIL_READ_ONLY_OPTIMAL⟩,
  -- THSVS_ACCESS_FRAGMENT_SHADER_READ_OTHER
  ⟨VK_PIPELINE_STAGE_FRAGMENT_SHADER_BIT, VK_ACCESS_SHADER_READ_BIT, VK_IMAGE_LAYOUT_GENERAL⟩,
  -- THSVS_ACCESS_COLOR_ATTACHMENT_READ
  ⟨VK_PIPELINE_STAGE_COLOR_ATTACHMENT_OUTPUT_BIT, VK_ACCESS_COLOR_ATTACHMENT_READ_BIT,
    VK_IMAGE_LAYOUT_COLOR_ATTACHMENT_OPTIMAL⟩,
  -- THSVS_ACCESS_DEPTH_STENCIL_ATTACHMENT_READ
  ⟨VK_PIPELINE_STAGE_EARLY_FRAGMENT_TESTS_BIT ||| VK_PIPELINE_STAGE_LATE_FRAGMENT_TESTS_BIT,
    VK_ACCESS_DEPTH_STENCIL_ATTACHMENT_READ_BIT,
    VK_IMAGE_LAYOUT_DEPTH_STENCIL_READ_ONLY_OPTIMAL⟩,
  -- THSVS_ACCESS_COMPUTE_SHADER_READ_UNIFORM_BUFFER
  ⟨VK_PIPELINE_STAGE_COMPUTE_SHADER_BIT, VK_ACCESS_UNIFORM_READ_BIT, VK_IMAGE_LAYOUT_UNDEFINED⟩,
  -- THSVS_ACCESS_COMPUTE_SHADER_READ_SAMPLED_IMAGE_OR_UNIFORM_TEXEL_BUFFER
  ⟨VK_PIPELINE_STAGE_COMPUTE_SHADER_BIT, VK_ACCESS_SHADER_READ_BIT,
    VK_IMAGE_LAYOUT_SHADER_READ_ONLY_OPTIMAL⟩,
  -- THSVS_ACCESS_COMPUTE_SHADER_READ_OTHER
  ⟨VK_PIPELINE_STAGE_COMPUTE_SHADER_BIT, VK_ACCESS_SHADER_READ_BIT, VK_IMAGE_LAYOUT_GENERAL⟩,
  -- THSVS_ACCESS_ANY_SHADER_READ_UNIFORM_BUFFER
  ⟨VK_PIPELINE_STAGE_ALL_COMMANDS_BIT, VK_ACCESS_UNIFORM_READ_BIT, VK_IMAGE_LAYOUT_UNDEFINED⟩,
  -- THSVS_ACCESS_ANY_SHADER_READ_UNIFORM_BUFFER_OR_VERTEX_BUFFER
  ⟨VK_PIPELINE_STAGE_ALL_COMMANDS_BIT,
    VK_ACCESS_UNIFORM_READ_BIT ||| VK_ACCESS_VERTEX_ATTRIBUTE_READ_BIT,
    VK_IMAGE_LAYOUT_UNDEFINED⟩,
  -- THSVS_ACCESS_ANY_SHADER_READ_SAMPLED_IMAGE_OR_UNIFORM_TEXEL_BUFFER
  ⟨VK_PIPELINE_STAGE_ALL_COMMANDS_BIT, VK_ACCESS_SHADER_READ_BIT,
    VK_IMAGE_LAYOUT_SHADER_READ_ONLY_OPTIMAL⟩,
  -- THSVS_ACCESS_ANY_SHADER_READ_OTHER
  ⟨VK_PIPELINE_STAGE_ALL_COMMANDS_BIT, VK_ACCESS_SHADER_READ_BIT, VK_IMAGE_LAYOUT_GENERAL⟩,
  -- THSVS_ACCESS_TRANSFER_READ
  ⟨VK_PIPELINE_STAGE_TRANSFER_BIT, VK_ACCESS_TRANSFER_READ_BIT,
    VK_IMAGE_LAYOUT_TRANSFER_SRC_OPTIMAL⟩,
  -- THSVS_ACCESS_HOST_READ
  ⟨VK_PIPELINE_STAGE_HOST_BIT, VK_ACCESS_HOST_READ_BIT, VK_IMAGE_LAYOUT_GENERAL⟩,
  -- THSVS_ACCESS_PRESENT
  ⟨VK_PIPELINE_STAGE_TOP_OF_PIPE_BIT, 0, VK_IMAGE_LAYOUT_PRESENT_SRC_KHR⟩,
  -- THSVS_ACCESS_COMMAND_BUFFER_WRITE_NVX
  ⟨VK_PIPELINE_STAGE_COMMAND_PROCESS_BIT_NVX, VK_ACCESS_COMMAND_PROCESS_WRITE_BIT_NVX,
    VK_IMAGE_LAYOUT_UNDEFINED⟩,
  -- THSVS_ACCESS_VERTEX_SHADER_WRITE
  ⟨VK_PIPELINE_STAGE_VERTEX_SHADER_BIT, VK_ACCESS_SHADER_WRITE_BIT, VK_IMAGE_LAYOUT_GENERAL⟩,
  -- THSVS_ACCESS_TESSELLATION_CONTROL_SHADER_WRITE
  ⟨VK_PIPELINE_STAGE_TESSELLATION_CONTROL_SHADER_BIT, VK_ACCESS_SHADER_WRITE_BIT,
    VK_IMAGE_LAYOUT_GENERAL⟩,
  -- THSVS_ACCESS_TESSELLATION_EVALUATION_SHADER_WRITE
  ⟨VK_PIPELINE_STAGE_TESSELLATION_EVALUATION_SHADER_BIT, VK_ACCESS_SHADER_WRITE_BIT,
    VK_IMAGE_LAYOUT_GENERAL⟩,
  -- THSVS_ACCESS_GEOMETRY_SHADER_WRITE
  ⟨VK_PIPELINE_STAGE_GEOMETRY_SHADER_BIT, VK_ACCESS_SHADER_WRITE_BIT, VK_IMAGE_LAYOUT_GENERAL⟩,
  -- THSVS_ACCESS_FRAGMENT_SHADER_WRITE
  ⟨VK_PIPELINE_STAGE_FRAGMENT_SHADER_BIT, VK_ACCESS_SHADER_WRITE_BIT, VK_IMAGE_LAYOUT_GENERAL⟩,
  -- THSVS_ACCESS_COLOR_ATTACHMENT_WRITE
  ⟨VK_PIPELINE_STAGE_COLOR_ATTACHMENT_OUTPUT_BIT, VK_ACCESS_COLOR_ATTACHMENT_WRITE_BIT,
    VK_IMAGE_LAYOUT_COLOR_ATTACHMENT_OPTIMAL⟩,
  -- THSVS_ACCESS_DEPTH_STENCIL_ATTACHMENT_WRITE
  ⟨VK_PIPELINE_STAGE_EARLY_FRAGMENT_TESTS_BIT ||| VK_PIPELINE_STAGE_LATE_FRAGMENT_TESTS_BIT,
    VK_ACCESS_DEPTH_STENCIL_ATTACHMENT_WRITE_BIT,
    VK_IMAGE_LAYOUT_DEPTH_STENCIL_ATTACHMENT_OPTIMAL⟩,
  -- THSVS_ACCESS_DEPTH_ATTACHMENT_WRITE_STENCIL_READ_ONLY
  ⟨VK_PIPELINE_STAGE_EARLY_FRAGMENT_TESTS_BIT ||| VK_PIPELINE_STAGE_LATE_FRAGMENT_TESTS_BIT,
    VK_ACCESS_DEPTH_STENCIL_ATTACHMENT_WRITE_BIT ||| VK_ACCESS_DEPTH_STENCIL_ATTACHMENT_READ_BIT,
    VK_IMAGE_LAYOUT_DEPTH_ATTACHMENT_STENCIL_READ_ONLY_OPTIMAL_KHR⟩,
  -- THSVS_ACCESS_STENCIL_ATTACHMENT_WRITE_DEPTH_READ_ONLY
  ⟨VK_PIPELINE_STAGE_EARLY_FRAGMENT_TESTS_BIT ||| VK_PIPELINE_STAGE_LATE_FRAGMENT_TESTS_BIT,
    VK_ACCESS_DEPTH_STENCIL_ATTACHMENT_WRITE_BIT ||| VK_ACCESS_DEPTH_STENCIL_ATTACHMENT_READ_BIT,
    VK_IMAGE_LAYOUT_DEPTH_READ_ONLY_STENCIL_ATTACHMENT_OPTIMAL_KHR⟩,
  -- THSVS_ACCESS_COMPUTE_SHADER_WRITE
  ⟨VK_PIPELINE_STAGE_COMPUTE_SHADER_BIT, VK_ACCESS_SHADER_WRITE_BIT, VK_IMAGE_LAYOUT_GENERAL⟩,
  -- THSVS_ACCESS_ANY_SHADER_WRITE
  ⟨VK_PIPELINE_STAGE_ALL_COMMANDS_BIT, VK_ACCESS_SHADER_WRITE_BIT, VK_IMAGE_LAYOUT_GENERAL⟩,
  -- THSVS_ACCESS_TRANSFER_WRITE
  ⟨VK_PIPELINE_STAGE_TRANSFER_BIT, VK_ACCESS_TRANSFER_WRITE_BIT,
    VK_IMAGE_LAYOUT_TRANSFER_DST_OPTIMAL⟩,
  -- THSVS_ACCESS_HOST_WRITE
  ⟨VK_PIPELINE_STAGE_HOST_BIT, VK_ACCESS_HOST_WRITE_BIT, VK_IMAGE_LAYOUT_GENERAL⟩,
  -- THSVS_ACCESS_COLOR_ATTACHMENT_READ_WRITE
  ⟨VK_PIPELINE_STAGE_COLOR_ATTACHMENT_OUTPUT_BIT,
    VK_ACCESS_COLOR_ATTACHMENT_READ_BIT ||| VK_ACCESS_COLOR_ATTACHMENT_WRITE_BIT,
    VK_IMAGE_LAYOUT_COLOR_ATTACHMENT_OPTIMAL⟩,
  -- THSVS_ACCESS_GENERAL
  ⟨VK_PIPELINE_STAGE_ALL_COMMANDS_BIT,
    VK_ACCESS_TYPE_MEMORY_READ_BIT ||| VK_ACCESS_TYPE_MEMORY_WRITE_BIT,
    VK_IMAGE_LAYOUT_GENERAL⟩]

/-- Registry lookup `ThsvsAccessMap[a]`.  An out-of-range ordinal is a caller
contract violation (undefined behavior in C); the model returns the all-zero
record there. -/
def accessInfo (a : ThsvsAccessType) : ThsvsVkAccessInfo :=
  ThsvsAccessMap.getD a ⟨0, 0, VK_IMAGE_LAYOUT_UNDEFINED⟩

/-! ### Barrier input structures -/

structure ThsvsGlobalBarrier where
  prevAccesses : List ThsvsAccessType
  nextAccesses : List ThsvsAccessType
deriving DecidableEq

structure ThsvsBufferBarrier where
  prevAccesses : List ThsvsAccessType
  nextAccesses : List ThsvsAccessType
  srcQueueFamilyIndex : Nat
  dstQueueFamilyIndex : Nat
  buffer : Nat
  offset : Nat
  size : Nat
deriving DecidableEq

structure VkImageSubresourceRange where
  aspectMask : Nat
  baseMipLevel : Nat
  levelCount : Nat
  baseArrayLayer : Nat
  layerCount : Nat
deriving DecidableEq

structure ThsvsImageBarrier where
  prevAccesses : List ThsvsAccessType
  nextAccesses : List ThsvsAccessType
  prevLayout : ThsvsImageLayout
  nextLayout : ThsvsImageLayout
  discardContents : Nat
  srcQueueFamilyIndex : Nat
  dstQueueFamilyIndex : Nat
  image : Nat
  subresourceRange : VkImageSubresourceRange
deriving DecidableEq

/-! ### Vulkan output barrier structures (`pNext` is always `NULL` and omitted) -/

structure VkMemoryBarrier where
  sType : Nat
  srcAccessMask : Nat
  dstAccessMask : Nat
deriving DecidableEq

structure VkBufferMemoryBarrier where
  sType : Nat
  srcAccessMask : Nat
  dstAccessMask : Nat
  srcQueueFamilyIndex : Nat
  dstQueueFamilyIndex : Nat
  buffer : Nat
  offset : Nat
  size : Nat
deriving DecidableEq

structure VkImageMemoryBarrier where
  sType : Nat
  srcAccessMask : Nat
  dstAccessMask : Nat
  oldLayout : Nat
  newLayout : Nat
  srcQueueFamilyIndex : Nat
  dstQueueFamilyIndex : Nat
  image : Nat
  subresourceRange : VkImageSubresourceRange
deriving DecidableEq

/-! ### The mapping functions

Each C loop body becomes a step function and the loop a `List.foldl`; the
loop-carried state is the pair of the stage-mask accumulator and the output
record being filled in. -/

/-- One iteration of the `prevAccesses` loop of `thsvsGetVulkanMemoryBarrier`. -/
def memPrevStep (st : Nat × VkMemoryBarrier) (prevAccess : ThsvsAccessType) :
    Nat × VkMemoryBarrier :=
  let pPrevAccessInfo := accessInfo prevAccess
  (st.1 ||| pPrevAccessInfo.stageMask,
   if THSVS_ACCESS_PRESENT < prevAccess then
     { st.2 with srcAccessMask := st.2.srcAccessMask ||| pPrevAccessInfo.accessMask }
   else
     st.2)

/-- One iteration of the `nextAccesses` loop of `thsvsGetVulkanMemoryBarrier`. -/
def memNextStep (st : Nat × VkMemoryBarrier) (nextAccess : ThsvsAccessType) :
    Nat × VkMemoryBarrier :=
  let pNextAccessInfo := accessInfo nextAccess
  (st.1 ||| pNextAccessInfo.stageMask,
   { st.2 with dstAccessMask := st.2.dstAccessMask ||| pNextAccessInfo.accessMask })

/-- `thsvsGetVulkanMemoryBarrier`.  `pSrcStages`, `pDstStages` and
`pVkBarrier` carry the caller-visible initial contents of the output
parameters; the returned triple is their final contents. -/
def thsvsGetVulkanMemoryBarrier (thBarrier : ThsvsGlobalBarrier)
    (pSrcStages pDstStages : Nat) (pVkBarrier : VkMemoryBarrier) :
    Nat × Nat × VkMemoryBarrier :=
  let b0 : VkMemoryBarrier :=
    { pVkBarrier with
        sType := VK_STRUCTURE_TYPE_MEMORY_BARRIER
        srcAccessMask := 0
        dstAccessMask := 0 }
  let r1 := thBarrier.prevAccesses.foldl memPrevStep (pSrcStages, b0)
  let r2 := thBarrier.nextAccesses.foldl memNextStep (pDstStages, r1.2)
  (r1.1, r2.1, r2.2)

/-- One iteration of the `prevAccesses` loop of
`thsvsGetVulkanBufferMemoryBarrier`. -/
def bufPrevStep (st : Nat × VkBufferMemoryBarrier) (prevAccess : ThsvsAccessType) :
    Nat × VkBufferMemoryBarrier :=
  let pPrevAccessInfo := accessInfo prevAccess
  (st.1 ||| pPrevAccessInfo.stageMask,
   if THSVS_ACCESS_PRESENT < prevAccess then
     { st.2 with srcAccessMask := st.2.srcAccessMask ||| pPrevAccessInfo.accessMask }
   else
     st.2)

/-- One iteration of the `nextAccesses` loop of
`thsvsGetVulkanBufferMemoryBarrier`. -/
def bufNextStep (st : Nat × VkBufferMemoryBarrier) (nextAccess : ThsvsAccessType) :
    Nat × VkBufferMemoryBarrier :=
  let pNextAccessInfo := accessInfo nextAccess
  (st.1 ||| pNextAccessInfo.stageMask,
   { st.2 with dstAccessMask := st.2.dstAccessMask ||| pNextAccessInfo.accessMask })

/-- `thsvsGetVulkanBufferMemoryBarrier`. -/
def thsvsGetVulkanBufferMemoryBarrier (thBarrier : ThsvsBufferBarrier)
    (pSrcStages pDstStages : Nat) (pVkBarrier : VkBufferMemoryBarrier) :
    Nat × Nat × VkBufferMemoryBarrier :=
  let b0 : VkBufferMemoryBarrier :=
    { pVkBarrier with
        sType := VK_STRUCTURE_TYPE_BUFFER_MEMORY_BARRIER
        srcAccessMask := 0
        dstAccessMask := 0
        srcQueueFamilyIndex := thBarrier.srcQueueFamilyIndex
        dstQueueFamilyIndex := thBarrier.dstQueueFamilyIndex
        buffer := thBarrier.buffer
        offset := thBarrier.offset
        size := thBarrier.size }
  let r1 := thBarrier.prevAccesses.foldl bufPrevStep (pSrcStages, b0)
  let r2 := thBarrier.nextAccesses.foldl bufNextStep (pDstStages, r1.2)
  (r1.1, r2.1, r2.2)

/-- The `switch (thBarrier.prevLayout / nextLayout)` statement that appears in
both loops of `thsvsGetVulkanImageMemoryBarrier`. -/
def layoutForAccess (mode : ThsvsImageLayout) (access : ThsvsAccessType) : Nat :=
  match mode with
  | ThsvsImageLayout.THSVS_IMAGE_LAYOUT_GENERAL =>
      if access = THSVS_ACCESS_PRESENT then VK_IMAGE_LAYOUT_PRESENT_SRC_KHR
      else VK_IMAGE_LAYOUT_GENERAL
  | ThsvsImageLayout.THSVS_IMAGE_LAYOUT_OPTIMAL => (accessInfo access).imageLayout
  | ThsvsImageLayout.THSVS_IMAGE_LAYOUT_GENERAL_AND_PRESENTATION =>
      VK_IMAGE_LAYOUT_SHARED_PRESENT_KHR

/-- One iteration of the `prevAccesses` loop of
`thsvsGetVulkanImageMemoryBarrier` (stage/access accumulation plus the
`oldLayout` write, which is forced to `UNDEFINED` when
`discardContents == VK_TRUE`). -/
def imgPrevStep (thBarrier : ThsvsImageBarrier) (st : Nat × VkImageMemoryBarrier)
    (prevAccess : ThsvsAccessType) : Nat × VkImageMemoryBarrier :=
  let pPrevAccessInfo := accessInfo prevAccess
  let srcStages := st.1 ||| pPrevAccessInfo.stageMask
  let b1 :=
    if THSVS_ACCESS_PRESENT < prevAccess then
      { st.2 with srcAccessMask := st.2.srcAccessMask ||| pPrevAccessInfo.accessMask }
    else
      st.2
  let b2 :=
    if thBarrier.discardContents = VK_TRUE then
      { b1 with oldLayout := VK_IMAGE_LAYOUT_UNDEFINED }
    else
      { b1 with oldLayout := layoutForAccess thBarrier.prevLayout prevAccess }
  (srcStages, b2)

/-- One iteration of the `nextAccesses` loop of
`thsvsGetVulkanImageMemoryBarrier`. -/
def imgNextStep (thBarrier : ThsvsImageBarrier) (st : Nat × VkImageMemoryBarrier)
    (nextAccess : ThsvsAccessType) : Nat × VkImageMemoryBarrier :=
  let pNextAccessInfo := accessInfo nextAccess
  (st.1 ||| pNextAccessInfo.stageMask,
   { st.2 with
       dstAccessMask := st.2.dstAccessMask ||| pNextAccessInfo.accessMask
       newLayout := layoutForAccess thBarrier.nextLayout nextAccess })

/-- `thsvsGetVulkanImageMemoryBarrier`.  Note that `oldLayout` and
`newLayout` are written only inside the loops, so their initial (caller
supplied) values survive when the corresponding access list is empty. -/
def thsvsGetVulkanImageMemoryBarrier (thBarrier : ThsvsImageBarrier)
    (pSrcStages pDstStages : Nat) (pVkBarrier : VkImageMemoryBarrier) :
    Nat × Nat × VkImageMemoryBarrier :=
  let b0 : VkImageMemoryBarrier :=
    { pVkBarrier with
        sType := VK_STRUCTURE_TYPE_IMAGE_MEMORY_BARRIER
        srcAccessMask := 0
        dstAccessMask := 0
        srcQueueFamilyIndex := thBarrier.srcQueueFamilyIndex
        dstQueueFamilyIndex := thBarrier.dstQueueFamilyIndex
        image := thBarrier.image
        subresourceRange := thBarrier.subresourceRange }
  let r1 := thBarrier.prevAccesses.foldl (imgPrevStep thBarrier) (pSrcStages, b0)
  let r2 := thBarrier.nextAccesses.foldl (imgNextStep thBarrier) (pDstStages, r1.2)
  (r1.1, r2.1, r2.2)

/-! ### Diagnostic-build variants (`THSVS_ERROR_CHECK_POTENTIAL_HAZARD`)

With the potential-hazard check compiled in, every loop iteration executes
`assert(access <= THSVS_ACCESS_PRESENT || accessCount == 1)`.  A failed
`assert` halts the process; the model returns `none` in that case and the
normal result otherwise. -/

/-- All iterations of a loop over `l` pass the potential-hazard assertion. -/
def accessListHazardFree (l : List ThsvsAccessType) : Bool :=
  l.all (fun a => decide (a ≤ THSVS_ACCESS_PRESENT) || decide (l.length = 1))

/-- `thsvsGetVulkanMemoryBarrier` with `THSVS_ERROR_CHECK_POTENTIAL_HAZARD`:
`none` models the process halting on a failed assertion. -/
def thsvsGetVulkanMemoryBarrierChecked (thBarrier : ThsvsGlobalBarrier)
    (pSrcStages pDstStages : Nat) (pVkBarrier : VkMemoryBarrier) :
    Option (Nat × Nat × VkMemoryBarrier) :=
  if accessListHazardFree thBarrier.prevAccesses &&
     accessListHazardFree thBarrier.nextAccesses then
    some (thsvsGetVulkanMemoryBarrier thBarrier pSrcStages pDstStages pVkBarrier)
  else
    none

/-- `thsvsGetVulkanBufferMemoryBarrier` with the potential-hazard check. -/
def thsvsGetVulkanBufferMemoryBarrierChecked (thBarrier : ThsvsBufferBarrier)
    (pSrcStages pDstStages : Nat) (pVkBarrier : VkBufferMemoryBarrier) :
    Option (Nat × Nat × VkBufferMemoryBarrier) :=
  if accessListHazardFree thBarrier.prevAccesses &&
     accessListHazardFree thBarrier.nextAccesses then
    some (thsvsGetVulkanBufferMemoryBarrier thBarrier pSrcStages pDstStages pVkBarrier)
  else
    none

/-- `thsvsGetVulkanImageMemoryBarrier` with the potential-hazard check. -/
def thsvsGetVulkanImageMemoryBarrierChecked (thBarrier : ThsvsImageBarrier)
    (pSrcStages pDstStages : Nat) (pVkBarrier : VkImageMemoryBarrier) :
    Option (Nat × Nat × VkImageMemoryBarrier) :=
  if accessListHazardFree thBarrier.prevAccesses &&
     accessListHazardFree thBarrier.nextAccesses then
    some (thsvsGetVulkanImageMemoryBarrier thBarrier pSrcStages pDstStages pVkBarrier)
  else
    none

/-! ### Batch wrappers

`thsvsCmdPipelineBarrier` and `thsvsCmdWaitEvents` initialise
`srcStageMask = VK_PIPELINE_STAGE_TOP_OF_PIPE_BIT` and
`dstStageMask = VK_PIPELINE_STAGE_BOTTOM_OF_PIPE_BIT` and then thread them
through every mapping-function call; the model returns the pair finally
passed to `vkCmdPipelineBarrier` / `vkCmdWaitEvents`.  The `scratch*`
arguments model the uninitialised contents of the stack / `alloca` storage
the wrappers hand to the mapping functions. -/

/-- The `(srcStageMask, dstStageMask)` computed by `thsvsCmdPipelineBarrier`
and passed on to `vkCmdPipelineBarrier`. -/
def thsvsCmdPipelineBarrierStages (pGlobalBarrier : Option ThsvsGlobalBarrier)
    (pBufferBarriers : List ThsvsBufferBarrier)
    (pImageBarriers : List ThsvsImageBarrier)
    (scratchMem : VkMemoryBarrier) (scratchBuf : VkBufferMemoryBarrier)
    (scratchImg : VkImageMemoryBarrier) : Nat × Nat :=
  let sd0 : Nat × Nat :=
    (VK_PIPELINE_STAGE_TOP_OF_PIPE_BIT, VK_PIPELINE_STAGE_BOTTOM_OF_PIPE_BIT)
  let sd1 : Nat × Nat :=
    match pGlobalBarrier with
    | none => sd0
    | some g =>
        let r := thsvsGetVulkanMemoryBarrier g sd0.1 sd0.2 scratchMem
        (r.1, r.2.1)
  let sd2 := pBufferBarriers.foldl
    (fun sd bb =>
      let r := thsvsGetVulkanBufferMemoryBarrier bb sd.1 sd.2 scratchBuf
      (r.1, r.2.1)) sd1
  let sd3 := pImageBarriers.foldl
    (fun sd ib =>
      let r := thsvsGetVulkanImageMemoryBarrier ib sd.1 sd.2 scratchImg
      (r.1, r.2.1)) sd2
  sd3

/-- The `(srcStageMask, dstStageMask)` computed by `thsvsCmdWaitEvents` and
passed on to `vkCmdWaitEvents` (the source duplicates the accumulation code
of `thsvsCmdPipelineBarrier` verbatim). -/
def thsvsCmdWaitEventsStages (pGlobalBarrier : Option ThsvsGlobalBarrier)
    (pBufferBarriers : List ThsvsBufferBarrier)
    (pImageBarriers : List ThsvsImageBarrier)
    (scratchMem : VkMemoryBarrier) (scratchBuf : VkBufferMemoryBarrier)
    (scratchImg : VkImageMemoryBarrier) : Nat × Nat :=
  let sd0 : Nat × Nat :=
    (VK_PIPELINE_STAGE_TOP_OF_PIPE_BIT, VK_PIPELINE_STAGE_BOTTOM_OF_PIPE_BIT)
  let sd1 : Nat × Nat :=
    match pGlobalBarrier with
    | none => sd0
    | some g =>
        let r := thsvsGetVulkanMemoryBarrier g sd0.1 sd0.2 scratchMem
        (r.1, r.2.1)
  let sd2 := pBufferBarriers.foldl
    (fun sd bb =>
      let r := thsvsGetVulkanBufferMemoryBarrier bb sd.1 sd.2 scratchBuf
      (r.1, r.2.1)) sd1
  let sd3 := pImageBarriers.foldl
    (fun sd ib =>
      let r := thsvsGetVulkanImageMemoryBarrier ib sd.1 sd.2 scratchImg
      (r.1, r.2.1)) sd2
  sd3

/-! ### Specification-side definitions

These follow the spec's words ("the OR of registry accessMask over exactly
those prev entries whose ordinal is greater than THSVS_ACCESS_PRESENT",
"the unfiltered OR over all next entries", ...) and are compared with the
code functions above. -/

/-- OR of `f` over a list (the spec's "OR over the entries of ..."). -/
def orOf {α : Type} (f : α → Nat) (l : List α) : Nat :=
  (l.map f).foldl (fun m y => m ||| y) 0

/-- Spec: source stage mask = OR of `stageMask` over all prev entries. -/
def spec_srcStageMask (prev : List ThsvsAccessType) : Nat :=
  orOf (fun a => (accessInfo a).stageMask) prev

/-- Spec: source access mask = OR of `accessMask` over exactly the prev
entries whose ordinal is greater than `THSVS_ACCESS_PRESENT`. -/
def spec_srcAccessMask (prev : List ThsvsAccessType) : Nat :=
  orOf (fun a => (accessInfo a).accessMask)
    (prev.filter (fun a => decide (THSVS_ACCESS_PRESENT < a)))

/-- Spec: destination stage mask = OR of `stageMask` over all next entries. -/
def spec_dstStageMask (next : List ThsvsAccessType) : Nat :=
  orOf (fun a => (accessInfo a).stageMask) next

/-- Spec: destination access mask = unfiltered OR of `accessMask` over all
next entries, reads and writes alike. -/
def spec_dstAccessMask (next : List ThsvsAccessType) : Nat :=
  orOf (fun a => (accessInfo a).accessMask) next

/-- The layout value each `prevAccesses` iteration stores into `oldLayout`. -/
def oldLayoutStep (tb : ThsvsImageBarrier) (a : ThsvsAccessType) : Nat :=
  if tb.discardContents = VK_TRUE then VK_IMAGE_LAYOUT_UNDEFINED
  else layoutForAccess tb.prevLayout a

/-- The layout value each `nextAccesses` iteration stores into `newLayout`. -/
def newLayoutStep (tb : ThsvsImageBarrier) (a : ThsvsAccessType) : Nat :=
  layoutForAccess tb.nextLayout a

/-- A loop that overwrites a single cell with `g a` at every iteration:
the final value is `init` for `[]` and `g (last element)` otherwise. -/
def overwriteFold {α : Type} (g : α → Nat) (init : Nat) (l : List α) : Nat :=
  l.foldl (fun _ a => g a) init

/-- The hazard condition of claim C7: a list of length greater than one that
contains a write/general-class entry (ordinal above `THSVS_ACCESS_PRESENT`). -/
def hazardPredicate (l : List ThsvsAccessType) : Prop :=
  1 < l.length ∧ ∃ a ∈ l, THSVS_ACCESS_PRESENT < a

/-- Spec: the source stage contribution of a whole batch — OR over the
global barrier's and every buffer/image barrier's `prevAccesses`. -/
def spec_batchSrcStageMask (gb : Option ThsvsGlobalBarrier)
    (bufs : List ThsvsBufferBarrier) (imgs : List ThsvsImageBarrier) : Nat :=
  (match gb with
   | none => 0
   | some g => spec_srcStageMask g.prevAccesses) |||
    orOf (fun bb => spec_srcStageMask bb.prevAccesses) bufs |||
    orOf (fun ib => spec_srcStageMask ib.prevAccesses) imgs

/-- Spec: the destination stage contribution of a whole batch. -/
def spec_batchDstStageMask (gb : Option ThsvsGlobalBarrier)
    (bufs : List ThsvsBufferBarrier) (imgs : List ThsvsImageBarrier) : Nat :=
  (match gb with
   | none => 0
   | some g => spec_dstStageMask g.nextAccesses) |||
    orOf (fun bb => spec_dstStageMask bb.nextAccesses) bufs |||
    orOf (fun ib => spec_dstStageMask ib.nextAccesses) imgs

/-! ### Helper lemmas on OR-folds -/

theorem foldl_lor_shift (L : List Nat) (x : Nat) :
    L.foldl (fun m y => m ||| y) x = x ||| L.foldl (fun m y => m ||| y) 0 := by
  induction L generalizing x with
  | nil => simp
  | cons a L ih =>
    simp only [List.foldl_cons]
    rw [ih (x ||| a), ih (0 ||| a), Nat.zero_or, Nat.lor_assoc]

theorem orOf_nil {α : Type} (f : α → Nat) : orOf f [] = 0 := rfl

theorem orOf_cons {α : Type} (f : α → Nat) (a : α) (l : List α) :
    orOf f (a :: l) = f a ||| orOf f l := by
  unfold orOf
  simp only [List.map_cons, List.foldl_cons]
  rw [foldl_lor_shift, Nat.zero_or]

theorem orOf_perm {α : Type} (f : α → Nat) {l₁ l₂ : List α} (h : l₁.Perm l₂) :
    orOf f l₁ = orOf f l₂ := by
  induction h with
  | nil => rfl
  | cons a _ ih => rw [orOf_cons, orOf_cons, ih]
  | swap a b l =>
    rw [orOf_cons, orOf_cons, orOf_cons, orOf_cons, ← Nat.lor_assoc, ← Nat.lor_assoc,
      Nat.lor_comm (f b) (f a)]
  | trans _ _ ih₁ ih₂ => rw [ih₁, ih₂]

theorem spec_srcStageMask_cons (a : ThsvsAccessType) (l : List ThsvsAccessType) :
    spec_srcStageMask (a :: l) = (accessInfo a).stageMask ||| spec_srcStageMask l :=
  orOf_cons _ a l

theorem spec_dstStageMask_cons (a : ThsvsAccessType) (l : List ThsvsAccessType) :
    spec_dstStageMask (a :: l) = (accessInfo a).stageMask ||| spec_dstStageMask l :=
  orOf_cons _ a l

theorem spec_dstAccessMask_cons (a : ThsvsAccessType) (l : List ThsvsAccessType) :
    spec_dstAccessMask (a :: l) = (accessInfo a).accessMask ||| spec_dstAccessMask l :=
  orOf_cons _ a l

theorem spec_srcAccessMask_cons (a : ThsvsAccessType) (l : List ThsvsAccessType) :
    spec_srcAccessMask (a :: l) =
      (if THSVS_ACCESS_PRESENT < a then (accessInfo a).accessMask else 0) |||
        spec_srcAccessMask l := by
  unfold spec_srcAccessMask
  by_cases h : THSVS_ACCESS_PRESENT < a
  · simp [List.filter_cons, h, orOf_cons]
  · simp [List.filter_cons, h]

theorem spec_srcStageMask_perm {l₁ l₂ : List ThsvsAccessType} (h : l₁.Perm l₂) :
    spec_srcStageMask l₁ = spec_srcStageMask l₂ :=
  orOf_perm _ h

theorem spec_dstStageMask_perm {l₁ l₂ : List ThsvsAccessType} (h : l₁.Perm l₂) :
    spec_dstStageMask l₁ = spec_dstStageMask l₂ :=
  orOf_perm _ h

theorem spec_dstAccessMask_perm {l₁ l₂ : List ThsvsAccessType} (h : l₁.Perm l₂) :
    spec_dstAccessMask l₁ = spec_dstAccessMask l₂ :=
  orOf_perm _ h

theorem spec_srcAccessMask_perm {l₁ l₂ : List ThsvsAccessType} (h : l₁.Perm l₂) :
    spec_srcAccessMask l₁ = spec_srcAccessMask l₂ :=
  orOf_perm _ (h.filter _)

/-! ### Helper lemmas on overwrite-folds -/

theorem overwriteFold_nil {α : Type} (g : α → Nat) (init : Nat) :
    overwriteFold g init [] = init := rfl

theorem overwriteFold_cons {α : Type} (g : α → Nat) (init : Nat) (a : α) (l : List α) :
    overwriteFold g init (a :: l) = overwriteFold g (g a) l := rfl

theorem overwriteFold_getLast {α : Type} (g : α → Nat) (init : Nat)
    (l : List α) (h : l ≠ []) :
    overwriteFold g init l = g (l.getLast h) := by
  induction l generalizing init with
  | nil => exact absurd rfl h
  | cons a l ih =>
    cases l with
    | nil => rfl
    | cons b l' =>
      rw [overwriteFold_cons, ih (g a) (by simp)]
      exact (congrArg g (List.getLast_cons (l := b :: l') (by simp))).symm

theorem overwriteFold_perm {α : Type} (g : α → Nat) (init : Nat)
    {l₁ l₂ : List α} (hp : l₁.Perm l₂)
    (hconsistent : ∀ a ∈ l₁, ∀ b ∈ l₁, g a = g b) :
    overwriteFold g init l₁ = overwriteFold g init l₂ := by
  cases l₁ with
  | nil => rw [hp.symm.eq_nil]
  | cons x xs =>
    have h₁ : (x :: xs) ≠ [] := by simp
    have h₂ : l₂ ≠ [] := by
      intro hnil
      subst hnil
      exact absurd hp.eq_nil (by simp)
    rw [overwriteFold_getLast g init _ h₁, overwriteFold_getLast g init _ h₂]
    exact hconsistent _ (List.getLast_mem h₁) _ (hp.symm.subset (List.getLast_mem h₂))

/-! ### Closed forms of the loop folds -/

theorem memPrev_foldl (l : List ThsvsAccessType) (s : Nat) (b : VkMemoryBarrier) :
    l.foldl memPrevStep (s, b) =
      (s ||| spec_srcStageMask l,
       { b with srcAccessMask := b.srcAccessMask ||| spec_srcAccessMask l }) := by
  induction l generalizing s b with
  | nil => simp [spec_srcStageMask, spec_srcAccessMask, orOf]
  | cons a l ih =>
    simp only [List.foldl_cons, memPrevStep]
    by_cases h : THSVS_ACCESS_PRESENT < a
    · rw [if_pos h, ih]
      simp [spec_srcStageMask_cons, spec_srcAccessMask_cons, h, Nat.lor_assoc]
    · rw [if_neg h, ih]
      simp [spec_srcStageMask_cons, spec_srcAccessMask_cons, h, Nat.lor_assoc]

theorem memNext_foldl (l : List ThsvsAccessType) (d : Nat) (b : VkMemoryBarrier) :
    l.foldl memNextStep (d, b) =
      (d ||| spec_dstStageMask l,
       { b with dstAccessMask := b.dstAccessMask ||| spec_dstAccessMask l }) := by
  induction l generalizing d b with
  | nil => simp [spec_dstStageMask, spec_dstAccessMask, orOf]
  | cons a l ih =>
    simp only [List.foldl_cons, memNextStep]
    rw [ih]
    simp [spec_dstStageMask_cons, spec_dstAccessMask_cons, Nat.lor_assoc]

theorem bufPrev_foldl (l : List ThsvsAccessType) (s : Nat) (b : VkBufferMemoryBarrier) :
    l.foldl bufPrevStep (s, b) =
      (s ||| spec_srcStageMask l,
       { b with srcAccessMask := b.srcAccessMask ||| spec_srcAccessMask l }) := by
  induction l generalizing s b with
  | nil => simp [spec_srcStageMask, spec_srcAccessMask, orOf]
  | cons a l ih =>
    simp only [List.foldl_cons, bufPrevStep]
    by_cases h : THSVS_ACCESS_PRESENT < a
    · rw [if_pos h, ih]
      simp [spec_srcStageMask_cons, spec_srcAccessMask_cons, h, Nat.lor_assoc]
    · rw [if_neg h, ih]
      simp [spec_srcStageMask_cons, spec_srcAccessMask_cons, h, Nat.lor_assoc]

theorem bufNext_foldl (l : List ThsvsAccessType) (d : Nat) (b : VkBufferMemoryBarrier) :
    l.foldl bufNextStep (d, b) =
      (d ||| spec_dstStageMask l,
       { b with dstAccessMask := b.dstAccessMask ||| spec_dstAccessMask l }) := by
  induction l generalizing d b with
  | nil => simp [spec_dstStageMask, spec_dstAccessMask, orOf]
  | cons a l ih =>
    simp only [List.foldl_cons, bufNextStep]
    rw [ih]
    simp [spec_dstStageMask_cons, spec_dstAccessMask_cons, Nat.lor_assoc]

theorem imgPrev_foldl (tb : ThsvsImageBarrier) (l : List ThsvsAccessType)
    (s : Nat) (b : VkImageMemoryBarrier) :
    l.foldl (imgPrevStep tb) (s, b) =
      (s ||| spec_srcStageMask l,
       { b with
           srcAccessMask := b.srcAccessMask ||| spec_srcAccessMask l
           oldLayout := overwriteFold (oldLayoutStep tb) b.oldLayout l }) := by
  induction l generalizing s b with
  | nil => simp [spec_srcStageMask, spec_srcAccessMask, orOf, overwriteFold_nil]
  | cons a l ih =>
    simp only [List.foldl_cons, imgPrevStep]
    by_cases h : THSVS_ACCESS_PRESENT < a
    · by_cases hd : tb.discardContents = VK_TRUE
      · rw [if_pos h, if_pos hd, ih]
        simp [spec_srcStageMask_cons, spec_srcAccessMask_cons, h, Nat.lor_assoc,
          overwriteFold_cons, oldLayoutStep, hd]
      · rw [if_pos h, if_neg hd, ih]
        simp [spec_srcStageMask_cons, spec_srcAccessMask_cons, h, Nat.lor_assoc,
          overwriteFold_cons, oldLayoutStep, hd]
    · by_cases hd : tb.discardContents = VK_TRUE
      · rw [if_neg h, if_pos hd, ih]
        simp [spec_srcStageMask_cons, spec_srcAccessMask_cons, h, Nat.lor_assoc,
          overwriteFold_cons, oldLayoutStep, hd]
      · rw [if_neg h, if_neg hd, ih]
        simp [spec_srcStageMask_cons, spec_srcAccessMask_cons, h, Nat.lor_assoc,
          overwriteFold_cons, oldLayoutStep, hd]

theorem imgNext_foldl (tb : ThsvsImageBarrier) (l : List ThsvsAccessType)
    (d : Nat) (b : VkImageMemoryBarrier) :
    l.foldl (imgNextStep tb) (d, b) =
      (d ||| spec_dstStageMask l,
       { b with
           dstAccessMask := b.dstAccessMask ||| spec_dstAccessMask l
           newLayout := overwriteFold (newLayoutStep tb) b.newLayout l }) := by
  induction l generalizing d b with
  | nil => simp [spec_dstStageMask, spec_dstAccessMask, orOf, overwriteFold_nil]
  | cons a l ih =>
    simp only [List.foldl_cons, imgNextStep]
    rw [ih]
    simp [spec_dstStageMask_cons, spec_dstAccessMask_cons, Nat.lor_assoc,
      overwriteFold_cons, newLayoutStep]

/-! ### Closed forms of the mapping functions -/

theorem getMem_spec (tb : ThsvsGlobalBarrier) (s d : Nat) (pb : VkMemoryBarrier) :
    thsvsGetVulkanMemoryBarrier tb s d pb =
      (s ||| spec_srcStageMask tb.prevAccesses,
       d ||| spec_dstStageMask tb.nextAccesses,
       { sType := VK_STRUCTURE_TYPE_MEMORY_BARRIER
         srcAccessMask := spec_srcAccessMask tb.prevAccesses
         dstAccessMask := spec_dstAccessMask tb.nextAccesses }) := by
  unfold thsvsGetVulkanMemoryBarrier
  simp only [memPrev_foldl, memNext_foldl]
  simp

theorem getBuf_spec (tb : ThsvsBufferBarrier) (s d : Nat) (pb : VkBufferMemoryBarrier) :
    thsvsGetVulkanBufferMemoryBarrier tb s d pb =
      (s ||| spec_srcStageMask tb.prevAccesses,
       d ||| spec_dstStageMask tb.nextAccesses,
       { sType := VK_STRUCTURE_TYPE_BUFFER_MEMORY_BARRIER
         srcAccessMask := spec_srcAccessMask tb.prevAccesses
         dstAccessMask := spec_dstAccessMask tb.nextAccesses
         srcQueueFamilyIndex := tb.srcQueueFamilyIndex
         dstQueueFamilyIndex := tb.dstQueueFamilyIndex
         buffer := tb.buffer
         offset := tb.offset
         size := tb.size }) := by
  unfold thsvsGetVulkanBufferMemoryBarrier
  simp only [bufPrev_foldl, bufNext_foldl]
  simp

theorem getImg_spec (tb : ThsvsImageBarrier) (s d : Nat) (pb : VkImageMemoryBarrier) :
    thsvsGetVulkanImageMemoryBarrier tb s d pb =
      (s ||| spec_srcStageMask tb.prevAccesses,
       d ||| spec_dstStageMask tb.nextAccesses,
       { sType := VK_STRUCTURE_TYPE_IMAGE_MEMORY_BARRIER
         srcAccessMask := spec_srcAccessMask tb.prevAccesses
         dstAccessMask := spec_dstAccessMask tb.nextAccesses
         oldLayout := overwriteFold (oldLayoutStep tb) pb.oldLayout tb.prevAccesses
         newLayout := overwriteFold (newLayoutStep tb) pb.newLayout tb.nextAccesses
         srcQueueFamilyIndex := tb.srcQueueFamilyIndex
         dstQueueFamilyIndex := tb.dstQueueFamilyIndex
         image := tb.image
         subresourceRange := tb.subresourceRange }) := by
  unfold thsvsGetVulkanImageMemoryBarrier
  simp only [imgPrev_foldl, imgNext_foldl]
  simp

/-! ### Closed forms of the batch wrappers' stage accumulation -/

theorem bufStages_foldl (scr : VkBufferMemoryBarrier) (bufs : List ThsvsBufferBarrier) :
    ∀ sd : Nat × Nat,
      bufs.foldl (fun sd bb =>
        let r := thsvsGetVulkanBufferMemoryBarrier bb sd.1 sd.2 scr
        (r.1, r.2.1)) sd =
      (sd.1 ||| orOf (fun bb => spec_srcStageMask bb.prevAccesses) bufs,
       sd.2 ||| orOf (fun bb => spec_dstStageMask bb.nextAccesses) bufs) := by
  induction bufs with
  | nil =>
    intro sd
    simp [orOf_nil]
  | cons bb bufs ih =>
    intro sd
    simp only [List.foldl_cons]
    rw [ih]
    simp [getBuf_spec, orOf_cons, Nat.lor_assoc]

theorem imgStages_foldl (scr : VkImageMemoryBarrier) (imgs : List ThsvsImageBarrier) :
    ∀ sd : Nat × Nat,
      imgs.foldl (fun sd ib =>
        let r := thsvsGetVulkanImageMemoryBarrier ib sd.1 sd.2 scr
        (r.1, r.2.1)) sd =
      (sd.1 ||| orOf (fun ib => spec_srcStageMask ib.prevAccesses) imgs,
       sd.2 ||| orOf (fun ib => spec_dstStageMask ib.nextAccesses) imgs) := by
  induction imgs with
  | nil =>
    intro sd
    simp [orOf_nil]
  | cons ib imgs ih =>
    intro sd
    simp only [List.foldl_cons]
    rw [ih]
    simp [getImg_spec, orOf_cons, Nat.lor_assoc]

theorem cmdPipelineBarrierStages_spec (gb : Option ThsvsGlobalBarrier)
    (bufs : List ThsvsBufferBarrier) (imgs : List ThsvsImageBarrier)
    (m : VkMemoryBarrier) (bscr : VkBufferMemoryBarrier) (iscr : VkImageMemoryBarrier) :
    thsvsCmdPipelineBarrierStages gb bufs imgs m bscr iscr =
      (VK_PIPELINE_STAGE_TOP_OF_PIPE_BIT ||| spec_batchSrcStageMask gb bufs imgs,
       VK_PIPELINE_STAGE_BOTTOM_OF_PIPE_BIT ||| spec_batchDstStageMask gb bufs imgs) := by
  unfold thsvsCmdPipelineBarrierStages spec_batchSrcStageMask spec_batchDstStageMask
  cases gb with
  | none =>
    simp only [bufStages_foldl, imgStages_foldl]
    simp [Nat.lor_assoc]
  | some g =>
    simp only [bufStages_foldl, imgStages_foldl, getMem_spec]
    simp [Nat.lor_assoc]

theorem cmdWaitEventsStages_spec (gb : Option ThsvsGlobalBarrier)
    (bufs : List ThsvsBufferBarrier) (imgs : List ThsvsImageBarrier)
    (m : VkMemoryBarrier) (bscr : VkBufferMemoryBarrier) (iscr : VkImageMemoryBarrier) :
    thsvsCmdWaitEventsStages gb bufs imgs m bscr iscr =
      (VK_PIPELINE_STAGE_TOP_OF_PIPE_BIT ||| spec_batchSrcStageMask gb bufs imgs,
       VK_PIPELINE_STAGE_BOTTOM_OF_PIPE_BIT ||| spec_batchDstStageMask gb bufs imgs) := by
  unfold thsvsCmdWaitEventsStages spec_batchSrcStageMask spec_batchDstStageMask
  cases gb with
  | none =>
    simp only [bufStages_foldl, imgStages_foldl]
    simp [Nat.lor_assoc]
  | some g =>
    simp only [bufStages_foldl, imgStages_foldl, getMem_spec]
    simp [Nat.lor_assoc]

/-! ### The potential-hazard assertion condition -/

theorem hazardFree_false_iff (l : List ThsvsAccessType) :
    accessListHazardFree l = false ↔ hazardPredicate l := by
  unfold accessListHazardFree hazardPredicate
  rw [← Bool.not_eq_true, List.all_eq_true]
  constructor
  · intro h
    obtain ⟨a, ha⟩ := not_forall.mp h
    obtain ⟨hmem, hp⟩ := Classical.not_imp.mp ha
    simp only [Bool.or_eq_true, decide_eq_true_eq, not_or] at hp
    obtain ⟨h1, h2⟩ := hp
    have hgt : THSVS_ACCESS_PRESENT < a := Nat.not_le.mp h1
    have hpos : 0 < l.length := List.length_pos.mpr (List.ne_nil_of_mem hmem)
    refine ⟨by omega, a, hmem, hgt⟩
  · intro ⟨hlen, a, ha, hgt⟩ hall
    have h := hall a ha
    simp only [Bool.or_eq_true, decide_eq_true_eq] at h
    rcases h with h | h
    · exact absurd hgt (Nat.not_lt.mpr h)
    · omega

/-! ### Claim theorems -/

/-- Claim C1: in all three mapping functions, `srcAccessMask` is the OR of
the registry `accessMask` over exactly those prev entries with ordinal
greater than `THSVS_ACCESS_PRESENT`, while every prev entry (read-class
included) ORs its `stageMask` into the source stage mask; concretely,
prev = {compute-shader read (other)}, next = {compute-shader write} gives
`srcAccessMask = 0`, `dstAccessMask = VK_ACCESS_SHADER_WRITE_BIT` and both
stage masks equal to `VK_PIPELINE_STAGE_COMPUTE_SHADER_BIT`. -/
theorem srcAccessMask_excludes_reads :
    (∀ (tb : ThsvsGlobalBarrier) (s d : Nat) (pb : VkMemoryBarrier),
       (thsvsGetVulkanMemoryBarrier tb s d pb).2.2.srcAccessMask =
           spec_srcAccessMask tb.prevAccesses ∧
         (thsvsGetVulkanMemoryBarrier tb s d pb).1 =
           s ||| spec_srcStageMask tb.prevAccesses) ∧
    (∀ (tb : ThsvsBufferBarrier) (s d : Nat) (pb : VkBufferMemoryBarrier),
       (thsvsGetVulkanBufferMemoryBarrier tb s d pb).2.2.srcAccessMask =
           spec_srcAccessMask tb.prevAccesses ∧
         (thsvsGetVulkanBufferMemoryBarrier tb s d pb).1 =
           s ||| spec_srcStageMask tb.prevAccesses) ∧
    (∀ (tb : ThsvsImageBarrier) (s d : Nat) (pb : VkImageMemoryBarrier),
       (thsvsGetVulkanImageMemoryBarrier tb s d pb).2.2.srcAccessMask =
           spec_srcAccessMask tb.prevAccesses ∧
         (thsvsGetVulkanImageMemoryBarrier tb s d pb).1 =
           s ||| spec_srcStageMask tb.prevAccesses) ∧
    thsvsGetVulkanMemoryBarrier
        ⟨[THSVS_ACCESS_COMPUTE_SHADER_READ_OTHER], [THSVS_ACCESS_COMPUTE_SHADER_WRITE]⟩
        0 0 ⟨0, 0, 0⟩ =
      (VK_PIPELINE_STAGE_COMPUTE_SHADER_BIT, VK_PIPELINE_STAGE_COMPUTE_SHADER_BIT,
       ⟨VK_STRUCTURE_TYPE_MEMORY_BARRIER, 0, VK_ACCESS_SHADER_WRITE_BIT⟩) := by
  refine ⟨?_, ?_, ?_, by decide⟩
  · intro tb s d pb
    rw [getMem_spec]
    exact ⟨rfl, rfl⟩
  · intro tb s d pb
    rw [getBuf_spec]
    exact ⟨rfl, rfl⟩
  · intro tb s d pb
    rw [getImg_spec]
    exact ⟨rfl, rfl⟩

/-- Claim C3: the destination access mask is the unfiltered OR of the
registry `accessMask` over all next entries and the destination stage mask
the OR of their `stageMask`s, in all three mapping functions; concretely,
prev = {compute-shader write}, next = {index buffer, compute-shader uniform
read} gives `dstStage = VK_PIPELINE_STAGE_VERTEX_INPUT_BIT |||
VK_PIPELINE_STAGE_COMPUTE_SHADER_BIT` and `dstAccessMask =
VK_ACCESS_INDEX_READ_BIT ||| VK_ACCESS_UNIFORM_READ_BIT`. -/
theorem dstAccessMask_unfiltered :
    (∀ (tb : ThsvsGlobalBarrier) (s d : Nat) (pb : VkMemoryBarrier),
       (thsvsGetVulkanMemoryBarrier tb s d pb).2.2.dstAccessMask =
           spec_dstAccessMask tb.nextAccesses ∧
         (thsvsGetVulkanMemoryBarrier tb s d pb).2.1 =
           d ||| spec_dstStageMask tb.nextAccesses) ∧
    (∀ (tb : ThsvsBufferBarrier) (s d : Nat) (pb : VkBufferMemoryBarrier),
       (thsvsGetVulkanBufferMemoryBarrier tb s d pb).2.2.dstAccessMask =
           spec_dstAccessMask tb.nextAccesses ∧
         (thsvsGetVulkanBufferMemoryBarrier tb s d pb).2.1 =
           d ||| spec_dstStageMask tb.nextAccesses) ∧
    (∀ (tb : ThsvsImageBarrier) (s d : Nat) (pb : VkImageMemoryBarrier),
       (thsvsGetVulkanImageMemoryBarrier tb s d pb).2.2.dstAccessMask =
           spec_dstAccessMask tb.nextAccesses ∧
         (thsvsGetVulkanImageMemoryBarrier tb s d pb).2.1 =
           d ||| spec_dstStageMask tb.nextAccesses) ∧
    thsvsGetVulkanMemoryBarrier
        ⟨[THSVS_ACCESS_COMPUTE_SHADER_WRITE],
         [THSVS_ACCESS_INDEX_BUFFER, THSVS_ACCESS_COMPUTE_SHADER_READ_UNIFORM_BUFFER]⟩
        0 0 ⟨0, 0, 0⟩ =
      (VK_PIPELINE_STAGE_COMPUTE_SHADER_BIT,
       VK_PIPELINE_STAGE_VERTEX_INPUT_BIT ||| VK_PIPELINE_STAGE_COMPUTE_SHADER_BIT,
       ⟨VK_STRUCTURE_TYPE_MEMORY_BARRIER, VK_ACCESS_SHADER_WRITE_BIT,
        VK_ACCESS_INDEX_READ_BIT ||| VK_ACCESS_UNIFORM_READ_BIT⟩) := by
  refine ⟨?_, ?_, ?_, by decide⟩
  · intro tb s d pb
    rw [getMem_spec]
    exact ⟨rfl, rfl⟩
  · intro tb s d pb
    rw [getBuf_spec]
    exact ⟨rfl, rfl⟩
  · intro tb s d pb
    rw [getImg_spec]
    exact ⟨rfl, rfl⟩

/-- Claim C2, counterexample: permuting `prevAccesses` of an image barrier
whose two entries resolve to different optimal layouts changes the resolved
`oldLayout` (the loop overwrites `oldLayout` each iteration, so the last
entry wins), so the claim's "never changes any component, no precondition"
is false at this input. -/
theorem image_barrier_perm_changes_oldLayout :
    List.Perm [THSVS_ACCESS_COLOR_ATTACHMENT_WRITE, THSVS_ACCESS_TRANSFER_READ]
      [THSVS_ACCESS_TRANSFER_READ, THSVS_ACCESS_COLOR_ATTACHMENT_WRITE] ∧
    (thsvsGetVulkanImageMemoryBarrier
        ⟨[THSVS_ACCESS_COLOR_ATTACHMENT_WRITE, THSVS_ACCESS_TRANSFER_READ], [],
         ThsvsImageLayout.THSVS_IMAGE_LAYOUT_OPTIMAL,
         ThsvsImageLayout.THSVS_IMAGE_LAYOUT_OPTIMAL,
         0, 0, 0, 0, ⟨0, 0, 0, 0, 0⟩⟩
        0 0 ⟨0, 0, 0, 0, 0, 0, 0, 0, ⟨0, 0, 0, 0, 0⟩⟩).2.2.oldLayout =
      VK_IMAGE_LAYOUT_TRANSFER_SRC_OPTIMAL ∧
    (thsvsGetVulkanImageMemoryBarrier
        ⟨[THSVS_ACCESS_TRANSFER_READ, THSVS_ACCESS_COLOR_ATTACHMENT_WRITE], [],
         ThsvsImageLayout.THSVS_IMAGE_LAYOUT_OPTIMAL,
         ThsvsImageLayout.THSVS_IMAGE_LAYOUT_OPTIMAL,
         0, 0, 0, 0, ⟨0, 0, 0, 0, 0⟩⟩
        0 0 ⟨0, 0, 0, 0, 0, 0, 0, 0, ⟨0, 0, 0, 0, 0⟩⟩).2.2.oldLayout =
      VK_IMAGE_LAYOUT_COLOR_ATTACHMENT_OPTIMAL ∧
    thsvsGetVulkanImageMemoryBarrier
        ⟨[THSVS_ACCESS_COLOR_ATTACHMENT_WRITE, THSVS_ACCESS_TRANSFER_READ], [],
         ThsvsImageLayout.THSVS_IMAGE_LAYOUT_OPTIMAL,
         ThsvsImageLayout.THSVS_IMAGE_LAYOUT_OPTIMAL,
         0, 0, 0, 0, ⟨0, 0, 0, 0, 0⟩⟩
        0 0 ⟨0, 0, 0, 0, 0, 0, 0, 0, ⟨0, 0, 0, 0, 0⟩⟩ ≠
      thsvsGetVulkanImageMemoryBarrier
        ⟨[THSVS_ACCESS_TRANSFER_READ, THSVS_ACCESS_COLOR_ATTACHMENT_WRITE], [],
         ThsvsImageLayout.THSVS_IMAGE_LAYOUT_OPTIMAL,
         ThsvsImageLayout.THSVS_IMAGE_LAYOUT_OPTIMAL,
         0, 0, 0, 0, ⟨0, 0, 0, 0, 0⟩⟩
        0 0 ⟨0, 0, 0, 0, 0, 0, 0, 0, ⟨0, 0, 0, 0, 0⟩⟩ := by
  decide

/-- Claim C2 as amended: permuting `prevAccesses` or `nextAccesses` never
changes the stage masks or access masks of any of the three mapping
functions (global and buffer outputs are fully invariant); for image
barriers `oldLayout` (resp. `newLayout`) is additionally invariant provided
every entry of the permuted side resolves to one consistent layout — the
documented mixed-layout precondition.  Without that precondition the
layouts track the last list entry and may change (see the counterexample). -/
theorem barrier_resolution_perm_invariant :
    (∀ (p₁ p₂ n₁ n₂ : List ThsvsAccessType) (s d : Nat) (pb : VkMemoryBarrier),
       p₁.Perm p₂ → n₁.Perm n₂ →
       thsvsGetVulkanMemoryBarrier ⟨p₁, n₁⟩ s d pb =
         thsvsGetVulkanMemoryBarrier ⟨p₂, n₂⟩ s d pb) ∧
    (∀ (p₁ p₂ n₁ n₂ : List ThsvsAccessType) (q₁ q₂ bh off sz s d : Nat)
       (pb : VkBufferMemoryBarrier),
       p₁.Perm p₂ → n₁.Perm n₂ →
       thsvsGetVulkanBufferMemoryBarrier ⟨p₁, n₁, q₁, q₂, bh, off, sz⟩ s d pb =
         thsvsGetVulkanBufferMemoryBarrier ⟨p₂, n₂, q₁, q₂, bh, off, sz⟩ s d pb) ∧
    (∀ (p₁ p₂ n₁ n₂ : List ThsvsAccessType) (pl nl : ThsvsImageLayout)
       (dc q₁ q₂ im : Nat) (srr : VkImageSubresourceRange) (s d : Nat)
       (pb : VkImageMemoryBarrier),
       p₁.Perm p₂ → n₁.Perm n₂ →
       ((thsvsGetVulkanImageMemoryBarrier ⟨p₁, n₁, pl, nl, dc, q₁, q₂, im, srr⟩ s d pb).1 =
           (thsvsGetVulkanImageMemoryBarrier ⟨p₂, n₂, pl, nl, dc, q₁, q₂, im, srr⟩ s d pb).1 ∧
         (thsvsGetVulkanImageMemoryBarrier ⟨p₁, n₁, pl, nl, dc, q₁, q₂, im, srr⟩ s d pb).2.1 =
           (thsvsGetVulkanImageMemoryBarrier ⟨p₂, n₂, pl, nl, dc, q₁, q₂, im, srr⟩ s d pb).2.1 ∧
         (thsvsGetVulkanImageMemoryBarrier
             ⟨p₁, n₁, pl, nl, dc, q₁, q₂, im, srr⟩ s d pb).2.2.srcAccessMask =
           (thsvsGetVulkanImageMemoryBarrier
             ⟨p₂, n₂, pl, nl, dc, q₁, q₂, im, srr⟩ s d pb).2.2.srcAccessMask ∧
         (thsvsGetVulkanImageMemoryBarrier
             ⟨p₁, n₁, pl, nl, dc, q₁, q₂, im, srr⟩ s d pb).2.2.dstAccessMask =
           (thsvsGetVulkanImageMemoryBarrier
             ⟨p₂, n₂, pl, nl, dc, q₁, q₂, im, srr⟩ s d pb).2.2.dstAccessMask) ∧
       ((∀ a ∈ p₁, ∀ b ∈ p₁, layoutForAccess pl a = layoutForAccess pl b) →
         (thsvsGetVulkanImageMemoryBarrier
             ⟨p₁, n₁, pl, nl, dc, q₁, q₂, im, srr⟩ s d pb).2.2.oldLayout =
           (thsvsGetVulkanImageMemoryBarrier
             ⟨p₂, n₂, pl, nl, dc, q₁, q₂, im, srr⟩ s d pb).2.2.oldLayout) ∧
       ((∀ a ∈ n₁, ∀ b ∈ n₁, layoutForAccess nl a = layoutForAccess nl b) →
         (thsvsGetVulkanImageMemoryBarrier
             ⟨p₁, n₁, pl, nl, dc, q₁, q₂, im, srr⟩ s d pb).2.2.newLayout =
           (thsvsGetVulkanImageMemoryBarrier
             ⟨p₂, n₂, pl, nl, dc, q₁, q₂, im, srr⟩ s d pb).2.2.newLayout)) := by
  refine ⟨?_, ?_, ?_⟩
  · intro p₁ p₂ n₁ n₂ s d pb hp hn
    rw [getMem_spec, getMem_spec]
    simp only [spec_srcStageMask_perm hp, spec_srcAccessMask_perm hp,
      spec_dstStageMask_perm hn, spec_dstAccessMask_perm hn]
  · intro p₁ p₂ n₁ n₂ q₁ q₂ bh off sz s d pb hp hn
    rw [getBuf_spec, getBuf_spec]
    simp only [spec_srcStageMask_perm hp, spec_srcAccessMask_perm hp,
      spec_dstStageMask_perm hn, spec_dstAccessMask_perm hn]
  · intro p₁ p₂ n₁ n₂ pl nl dc q₁ q₂ im srr s d pb hp hn
    refine ⟨?_, ?_, ?_⟩
    · rw [getImg_spec, getImg_spec]
      simp only [spec_srcStageMask_perm hp, spec_srcAccessMask_perm hp,
        spec_dstStageMask_perm hn, spec_dstAccessMask_perm hn]
      exact ⟨trivial, trivial, trivial, trivial⟩
    · intro hcons
      rw [getImg_spec, getImg_spec]
      apply overwriteFold_perm _ _ hp
      intro a ha b hb
      unfold oldLayoutStep
      by_cases hd : dc = VK_TRUE
      · simp [hd]
      · simp only [if_neg hd]
        exact hcons a ha b hb
    · intro hcons
      rw [getImg_spec, getImg_spec]
      apply overwriteFold_perm _ _ hn
      intro a ha b hb
      unfold newLayoutStep
      exact hcons a ha b hb

/-- Claim C2 witness: a concrete application of the permutation-invariance
theorem to a swapped destination list. -/
theorem barrier_resolution_perm_invariant_witness :
    thsvsGetVulkanMemoryBarrier
        ⟨[THSVS_ACCESS_COMPUTE_SHADER_WRITE],
         [THSVS_ACCESS_INDEX_BUFFER, THSVS_ACCESS_COMPUTE_SHADER_READ_UNIFORM_BUFFER]⟩
        0 0 ⟨0, 0, 0⟩ =
      thsvsGetVulkanMemoryBarrier
        ⟨[THSVS_ACCESS_COMPUTE_SHADER_WRITE],
         [THSVS_ACCESS_COMPUTE_SHADER_READ_UNIFORM_BUFFER, THSVS_ACCESS_INDEX_BUFFER]⟩
        0 0 ⟨0, 0, 0⟩ :=
  barrier_resolution_perm_invariant.1 _ _ _ _ 0 0 ⟨0, 0, 0⟩ (by decide) (by decide)

/-- Claim C4: per next access, the computed layout is: mode GENERAL ⇒
`VK_IMAGE_LAYOUT_GENERAL` except `VK_IMAGE_LAYOUT_PRESENT_SRC_KHR` for the
present access; mode GENERAL_AND_PRESENTATION ⇒
`VK_IMAGE_LAYOUT_SHARED_PRESENT_KHR` unconditionally; mode OPTIMAL ⇒ the
access's canonical registry layout.  The function stores these per-access
values into `newLayout` (last entry wins) and, when `discardContents` is
not set, the same mode semantics into `oldLayout` from the prev accesses. -/
theorem image_layout_mode_semantics :
    (∀ a : ThsvsAccessType,
       layoutForAccess ThsvsImageLayout.THSVS_IMAGE_LAYOUT_GENERAL a =
         if a = THSVS_ACCESS_PRESENT then VK_IMAGE_LAYOUT_PRESENT_SRC_KHR
         else VK_IMAGE_LAYOUT_GENERAL) ∧
    (∀ a : ThsvsAccessType,
       layoutForAccess ThsvsImageLayout.THSVS_IMAGE_LAYOUT_GENERAL_AND_PRESENTATION a =
         VK_IMAGE_LAYOUT_SHARED_PRESENT_KHR) ∧
    (∀ a : ThsvsAccessType,
       layoutForAccess ThsvsImageLayout.THSVS_IMAGE_LAYOUT_OPTIMAL a =
         (accessInfo a).imageLayout) ∧
    (∀ (tb : ThsvsImageBarrier) (s d : Nat) (pb : VkImageMemoryBarrier)
       (h : tb.nextAccesses ≠ []),
       (thsvsGetVulkanImageMemoryBarrier tb s d pb).2.2.newLayout =
         layoutForAccess tb.nextLayout (tb.nextAccesses.getLast h)) ∧
    (∀ (tb : ThsvsImageBarrier) (s d : Nat) (pb : VkImageMemoryBarrier)
       (h : tb.prevAccesses ≠ []),
       tb.discardContents ≠ VK_TRUE →
       (thsvsGetVulkanImageMemoryBarrier tb s d pb).2.2.oldLayout =
         layoutForAccess tb.prevLayout (tb.prevAccesses.getLast h)) := by
  refine ⟨fun a => rfl, fun a => rfl, fun a => rfl, ?_, ?_⟩
  · intro tb s d pb h
    rw [getImg_spec]
    exact overwriteFold_getLast _ _ _ h
  · intro tb s d pb h hd
    rw [getImg_spec]
    rw [overwriteFold_getLast _ _ _ h]
    unfold oldLayoutStep
    rw [if_neg hd]

/-- Claim C4 witness: concrete applications of the layout-mode theorem —
next = {present} under GENERAL yields the present layout, and a prev
color-attachment write under OPTIMAL with contents preserved yields the
color-attachment-optimal old layout. -/
theorem image_layout_mode_semantics_witness :
    (thsvsGetVulkanImageMemoryBarrier
        ⟨[], [THSVS_ACCESS_PRESENT], ThsvsImageLayout.THSVS_IMAGE_LAYOUT_OPTIMAL,
         ThsvsImageLayout.THSVS_IMAGE_LAYOUT_GENERAL, 0, 0, 0, 0, ⟨0, 0, 0, 0, 0⟩⟩
        0 0 ⟨0, 0, 0, 0, 0, 0, 0, 0, ⟨0, 0, 0, 0, 0⟩⟩).2.2.newLayout =
      VK_IMAGE_LAYOUT_PRESENT_SRC_KHR ∧
    (thsvsGetVulkanImageMemoryBarrier
        ⟨[THSVS_ACCESS_COLOR_ATTACHMENT_WRITE], [],
         ThsvsImageLayout.THSVS_IMAGE_LAYOUT_OPTIMAL,
         ThsvsImageLayout.THSVS_IMAGE_LAYOUT_OPTIMAL, 0, 0, 0, 0, ⟨0, 0, 0, 0, 0⟩⟩
        0 0 ⟨0, 0, 0, 0, 0, 0, 0, 0, ⟨0, 0, 0, 0, 0⟩⟩).2.2.oldLayout =
      VK_IMAGE_LAYOUT_COLOR_ATTACHMENT_OPTIMAL := by
  constructor
  · rw [image_layout_mode_semantics.2.2.2.1
      ⟨[], [THSVS_ACCESS_PRESENT], ThsvsImageLayout.THSVS_IMAGE_LAYOUT_OPTIMAL,
       ThsvsImageLayout.THSVS_IMAGE_LAYOUT_GENERAL, 0, 0, 0, 0, ⟨0, 0, 0, 0, 0⟩⟩
      0 0 ⟨0, 0, 0, 0, 0, 0, 0, 0, ⟨0, 0, 0, 0, 0⟩⟩ (by decide)]
    rfl
  · rw [image_layout_mode_semantics.2.2.2.2
      ⟨[THSVS_ACCESS_COLOR_ATTACHMENT_WRITE], [],
       ThsvsImageLayout.THSVS_IMAGE_LAYOUT_OPTIMAL,
       ThsvsImageLayout.THSVS_IMAGE_LAYOUT_OPTIMAL, 0, 0, 0, 0, ⟨0, 0, 0, 0, 0⟩⟩
      0 0 ⟨0, 0, 0, 0, 0, 0, 0, 0, ⟨0, 0, 0, 0, 0⟩⟩ (by decide) (by decide)]
    rfl

/-- Claim C5: with `discardContents = VK_TRUE` and a non-empty
`prevAccesses` list, the resolved `oldLayout` is
`VK_IMAGE_LAYOUT_UNDEFINED`, for every layout mode and every combination of
prev access types. -/
theorem discard_forces_undefined_oldLayout
    (tb : ThsvsImageBarrier) (s d : Nat) (pb : VkImageMemoryBarrier)
    (hd : tb.discardContents = VK_TRUE) (hne : tb.prevAccesses ≠ []) :
    (thsvsGetVulkanImageMemoryBarrier tb s d pb).2.2.oldLayout =
      VK_IMAGE_LAYOUT_UNDEFINED := by
  rw [getImg_spec]
  rw [overwriteFold_getLast _ _ _ hne]
  unfold oldLayoutStep
  rw [if_pos hd]

/-- Claim C5 witness: discard on a general-mode host-write prev access. -/
theorem discard_forces_undefined_oldLayout_witness :
    (thsvsGetVulkanImageMemoryBarrier
        ⟨[THSVS_ACCESS_HOST_WRITE], [], ThsvsImageLayout.THSVS_IMAGE_LAYOUT_GENERAL,
         ThsvsImageLayout.THSVS_IMAGE_LAYOUT_GENERAL, 1, 0, 0, 0, ⟨0, 0, 0, 0, 0⟩⟩
        0 0 ⟨0, 0, 0, 42, 0, 0, 0, 0, ⟨0, 0, 0, 0, 0⟩⟩).2.2.oldLayout =
      VK_IMAGE_LAYOUT_UNDEFINED :=
  discard_forces_undefined_oldLayout
    ⟨[THSVS_ACCESS_HOST_WRITE], [], ThsvsImageLayout.THSVS_IMAGE_LAYOUT_GENERAL,
     ThsvsImageLayout.THSVS_IMAGE_LAYOUT_GENERAL, 1, 0, 0, 0, ⟨0, 0, 0, 0, 0⟩⟩
    0 0 ⟨0, 0, 0, 42, 0, 0, 0, 0, ⟨0, 0, 0, 0, 0⟩⟩ (by decide) (by decide)

/-- Claim C6: with both access lists empty, `thsvsGetVulkanMemoryBarrier`
produces zero source and destination access masks and returns the
caller-supplied `pSrcStages` and `pDstStages` values unchanged — no default
stage bits are injected by the mapping function itself. -/
theorem empty_global_barrier_zero_masks (s d : Nat) (pb : VkMemoryBarrier) :
    thsvsGetVulkanMemoryBarrier ⟨[], []⟩ s d pb =
      (s, d, ⟨VK_STRUCTURE_TYPE_MEMORY_BARRIER, 0, 0⟩) := rfl

/-- Claim C7: with `THSVS_ERROR_CHECK_POTENTIAL_HAZARD` compiled in, each of
the three mapping functions halts on a failed assertion (modelled as
`none`) if and only if `prevAccesses` or `nextAccesses` is a list of length
greater than one containing an entry with ordinal above
`THSVS_ACCESS_PRESENT`; read-only lists and singleton lists of any class
never halt, and the only other outcome is the complete normal result. -/
theorem hazard_check_halts_iff :
    (∀ (tb : ThsvsGlobalBarrier) (s d : Nat) (pb : VkMemoryBarrier),
       thsvsGetVulkanMemoryBarrierChecked tb s d pb = none ↔
         hazardPredicate tb.prevAccesses ∨ hazardPredicate tb.nextAccesses) ∧
    (∀ (tb : ThsvsBufferBarrier) (s d : Nat) (pb : VkBufferMemoryBarrier),
       thsvsGetVulkanBufferMemoryBarrierChecked tb s d pb = none ↔
         hazardPredicate tb.prevAccesses ∨ hazardPredicate tb.nextAccesses) ∧
    (∀ (tb : ThsvsImageBarrier) (s d : Nat) (pb : VkImageMemoryBarrier),
       thsvsGetVulkanImageMemoryBarrierChecked tb s d pb = none ↔
         hazardPredicate tb.prevAccesses ∨ hazardPredicate tb.nextAccesses) := by
  refine ⟨?_, ?_, ?_⟩
  · intro tb s d pb
    unfold thsvsGetVulkanMemoryBarrierChecked
    rw [← hazardFree_false_iff, ← hazardFree_false_iff]
    simp only [Bool.and_eq_true, not_and_or]
    cases accessListHazardFree tb.prevAccesses <;>
      cases accessListHazardFree tb.nextAccesses <;> simp
  · intro tb s d pb
    unfold thsvsGetVulkanBufferMemoryBarrierChecked
    rw [← hazardFree_false_iff, ← hazardFree_false_iff]
    simp only [Bool.and_eq_true, not_and_or]
    cases accessListHazardFree tb.prevAccesses <;>
      cases accessListHazardFree tb.nextAccesses <;> simp
  · intro tb s d pb
    unfold thsvsGetVulkanImageMemoryBarrierChecked
    rw [← hazardFree_false_iff, ← hazardFree_false_iff]
    simp only [Bool.and_eq_true, not_and_or]
    cases accessListHazardFree tb.prevAccesses <;>
      cases accessListHazardFree tb.nextAccesses <;> simp

/-- Claim C8: the buffer mapping function copies `srcQueueFamilyIndex`,
`dstQueueFamilyIndex`, `buffer`, `offset` and `size` unmodified into the
output, and the image mapping function copies `srcQueueFamilyIndex`,
`dstQueueFamilyIndex`, `image` and `subresourceRange` unmodified,
independently of the access lists. -/
theorem opaque_fields_passed_through :
    (∀ (tb : ThsvsBufferBarrier) (s d : Nat) (pb : VkBufferMemoryBarrier),
       (thsvsGetVulkanBufferMemoryBarrier tb s d pb).2.2.srcQueueFamilyIndex =
           tb.srcQueueFamilyIndex ∧
         (thsvsGetVulkanBufferMemoryBarrier tb s d pb).2.2.dstQueueFamilyIndex =
           tb.dstQueueFamilyIndex ∧
         (thsvsGetVulkanBufferMemoryBarrier tb s d pb).2.2.buffer = tb.buffer ∧
         (thsvsGetVulkanBufferMemoryBarrier tb s d pb).2.2.offset = tb.offset ∧
         (thsvsGetVulkanBufferMemoryBarrier tb s d pb).2.2.size = tb.size) ∧
    (∀ (tb : ThsvsImageBarrier) (s d : Nat) (pb : VkImageMemoryBarrier),
       (thsvsGetVulkanImageMemoryBarrier tb s d pb).2.2.srcQueueFamilyIndex =
           tb.srcQueueFamilyIndex ∧
         (thsvsGetVulkanImageMemoryBarrier tb s d pb).2.2.dstQueueFamilyIndex =
           tb.dstQueueFamilyIndex ∧
         (thsvsGetVulkanImageMemoryBarrier tb s d pb).2.2.image = tb.image ∧
         (thsvsGetVulkanImageMemoryBarrier tb s d pb).2.2.subresourceRange =
           tb.subresourceRange) := by
  constructor
  · intro tb s d pb
    rw [getBuf_spec]
    exact ⟨rfl, rfl, rfl, rfl, rfl⟩
  · intro tb s d pb
    rw [getImg_spec]
    exact ⟨rfl, rfl, rfl, rfl⟩

/-- Claim C9: `oldLayout` is written only in the `prevAccesses` loop and
`newLayout` only in the `nextAccesses` loop, so with an empty
`prevAccesses` list the output `oldLayout` keeps the caller storage's prior
value — even when `discardContents` is `VK_TRUE` — and likewise `newLayout`
with an empty `nextAccesses` list. -/
theorem empty_side_keeps_caller_layout :
    (∀ (tb : ThsvsImageBarrier) (s d : Nat) (pb : VkImageMemoryBarrier),
       tb.prevAccesses = [] →
       (thsvsGetVulkanImageMemoryBarrier tb s d pb).2.2.oldLayout = pb.oldLayout) ∧
    (∀ (tb : ThsvsImageBarrier) (s d : Nat) (pb : VkImageMemoryBarrier),
       tb.nextAccesses = [] →
       (thsvsGetVulkanImageMemoryBarrier tb s d pb).2.2.newLayout = pb.newLayout) := by
  constructor
  · intro tb s d pb hp
    rw [getImg_spec, hp]
    rfl
  · intro tb s d pb hn
    rw [getImg_spec, hn]
    rfl

/-- Claim C9 witness: an empty prev list with `discardContents = VK_TRUE`
leaves the caller's `oldLayout` value (here 7) untouched, and an empty next
list leaves `newLayout` (here 3) untouched. -/
theorem empty_side_keeps_caller_layout_witness :
    (thsvsGetVulkanImageMemoryBarrier
        ⟨[], [], ThsvsImageLayout.THSVS_IMAGE_LAYOUT_OPTIMAL,
         ThsvsImageLayout.THSVS_IMAGE_LAYOUT_OPTIMAL, 1, 0, 0, 0, ⟨0, 0, 0, 0, 0⟩⟩
        0 0 ⟨0, 0, 0, 7, 3, 0, 0, 0, ⟨0, 0, 0, 0, 0⟩⟩).2.2.oldLayout = 7 ∧
    (thsvsGetVulkanImageMemoryBarrier
        ⟨[], [], ThsvsImageLayout.THSVS_IMAGE_LAYOUT_OPTIMAL,
         ThsvsImageLayout.THSVS_IMAGE_LAYOUT_OPTIMAL, 1, 0, 0, 0, ⟨0, 0, 0, 0, 0⟩⟩
        0 0 ⟨0, 0, 0, 7, 3, 0, 0, 0, ⟨0, 0, 0, 0, 0⟩⟩).2.2.newLayout = 3 :=
  ⟨empty_side_keeps_caller_layout.1
      ⟨[], [], ThsvsImageLayout.THSVS_IMAGE_LAYOUT_OPTIMAL,
       ThsvsImageLayout.THSVS_IMAGE_LAYOUT_OPTIMAL, 1, 0, 0, 0, ⟨0, 0, 0, 0, 0⟩⟩
      0 0 ⟨0, 0, 0, 7, 3, 0, 0, 0, ⟨0, 0, 0, 0, 0⟩⟩ rfl,
   empty_side_keeps_caller_layout.2
      ⟨[], [], ThsvsImageLayout.THSVS_IMAGE_LAYOUT_OPTIMAL,
       ThsvsImageLayout.THSVS_IMAGE_LAYOUT_OPTIMAL, 1, 0, 0, 0, ⟨0, 0, 0, 0, 0⟩⟩
      0 0 ⟨0, 0, 0, 7, 3, 0, 0, 0, ⟨0, 0, 0, 0, 0⟩⟩ rfl⟩

/-- Claim C10: `thsvsCmdPipelineBarrier` and `thsvsCmdWaitEvents` always
pass a source stage mask containing `VK_PIPELINE_STAGE_TOP_OF_PIPE_BIT` and
a destination stage mask containing `VK_PIPELINE_STAGE_BOTTOM_OF_PIPE_BIT`
to the underlying Vulkan command: the accumulators start from these
defaults and are only ever ORed into, so the bits survive arbitrary
non-empty access lists. -/
theorem wrapper_stage_defaults_always_present
    (gb : Option ThsvsGlobalBarrier) (bufs : List ThsvsBufferBarrier)
    (imgs : List ThsvsImageBarrier) (m : VkMemoryBarrier)
    (bscr : VkBufferMemoryBarrier) (iscr : VkImageMemoryBarrier) :
    (VK_PIPELINE_STAGE_TOP_OF_PIPE_BIT |||
        (thsvsCmdPipelineBarrierStages gb bufs imgs m bscr iscr).1 =
        (thsvsCmdPipelineBarrierStages gb bufs imgs m bscr iscr).1 ∧
      VK_PIPELINE_STAGE_BOTTOM_OF_PIPE_BIT |||
        (thsvsCmdPipelineBarrierStages gb bufs imgs m bscr iscr).2 =
        (thsvsCmdPipelineBarrierStages gb bufs imgs m bscr iscr).2) ∧
    (VK_PIPELINE_STAGE_TOP_OF_PIPE_BIT |||
        (thsvsCmdWaitEventsStages gb bufs imgs m bscr iscr).1 =
        (thsvsCmdWaitEventsStages gb bufs imgs m bscr iscr).1 ∧
      VK_PIPELINE_STAGE_BOTTOM_OF_PIPE_BIT |||
        (thsvsCmdWaitEventsStages gb bufs imgs m bscr iscr).2 =
        (thsvsCmdWaitEventsStages gb bufs imgs m bscr iscr).2) := by
  rw [cmdPipelineBarrierStages_spec, cmdWaitEventsStages_spec]
  refine ⟨⟨?_, ?_⟩, ?_, ?_⟩ <;>
    rw [← Nat.lor_assoc, Nat.or_self]
